import Mathlib

/-!
Verification of the FlatCAM core (camlib.py) against its natural-language
specification.  The Python source is shallowly embedded: machine floats are
modelled by exact rationals (ℚ), Python dictionaries by association lists,
exceptions by `Except PyErr`, and the transcendental functions of numpy
(`cos`, `sin`, `sqrt`, `arctan2`) by explicit function parameters, since the
properties under scrutiny are structural (counts, control flow, exact
formatting, monotonicity) rather than analytic.  `pi` is embedded as the
exact rational value of the IEEE-754 double `numpy.pi`.
-/

namespace FlatCAM

/-- Python exception kinds that the embedded code can raise. -/
inductive PyErr
  | keyError
  | typeError
  | valueError
  | attrError
  | indexError
  deriving Repr, DecidableEq

/-- Numeric value of a decimal digit character. -/
def digitVal (c : Char) : ℕ := c.toNat - '0'.toNat

/-- Integer value of a list of decimal digit characters (most significant first). -/
def digitsVal (cs : List Char) : ℕ := cs.foldl (fun a c => 10 * a + digitVal c) 0

/-- Python `float()` applied to a string consisting of an optional sign
followed by decimal digits (the only shape the verified claims feed it). -/
def pyFloatInt (s : String) : ℚ :=
  match s.toList with
  | '-' :: cs => -(digitsVal cs : ℚ)
  | '+' :: cs => (digitsVal cs : ℚ)
  | cs => (digitsVal cs : ℚ)

/-- Python `int()` applied to a string of an optional sign and decimal digits. -/
def pyIntStr (s : String) : ℤ :=
  match s.toList with
  | '-' :: cs => -(digitsVal cs : ℤ)
  | '+' :: cs => (digitsVal cs : ℤ)
  | cs => (digitsVal cs : ℤ)

/-- Python `int()` of a float: truncation toward zero. -/
def pyTrunc (q : ℚ) : ℤ := if q < 0 then ⌈q⌉ else ⌊q⌋

/-- Exact rational value of the IEEE-754 double `numpy.pi`
(3.141592653589793…), the constant the floating-point source computes with. -/
def piQ : ℚ := 884279719003555 / 281474976710656


/-! ## Excellon number decoding (camlib.py, Excellon.parse_number) -/

/-- Group 1 of `leadingzeros_re = ^(0*)(\d*)`: the maximal run of leading
zero characters. -/
def leadGroup1 (s : String) : List Char := s.toList.takeWhile (· == '0')

/-- Group 2 of `leadingzeros_re = ^(0*)(\d*)`: the maximal run of digits
following the leading zeros. -/
def leadGroup2 (s : String) : List Char :=
  (s.toList.drop (leadGroup1 s).length).takeWhile Char.isDigit

/-- Embedding of `Excellon.parse_number`.  `zeros` is the object's
zero-suppression field (`self.zeros`), which the header parser can set to
`none` (Python `None`).  Mirrors:
`if self.zeros == "L": return float(s)/(10**(len(g2)-2+len(g1)))`
`else: return float(s)/10000`. -/
def parse_number (zeros : Option String) (s : String) : ℚ :=
  if zeros = some "L" then
    pyFloatInt s / (10 : ℚ) ^ (((leadGroup2 s).length : ℤ) - 2 + (leadGroup1 s).length)
  else
    pyFloatInt s / 10000

/-! ## Excellon header units line (camlib.py, Excellon.parse_lines) -/

/-- Match of `units_re = ^(INCH|METRIC)(?:,([TL])Z)?$` on a full line.
Returns (group 1, group 2); group 2 is `none` when the `,TZ`/`,LZ` suffix
is absent. -/
def matchUnitsRe (line : String) : Option (String × Option String) :=
  if line = "INCH" then some ("INCH", none)
  else if line = "INCH,TZ" then some ("INCH", some "T")
  else if line = "INCH,LZ" then some ("INCH", some "L")
  else if line = "METRIC" then some ("METRIC", none)
  else if line = "METRIC,TZ" then some ("METRIC", some "T")
  else if line = "METRIC,LZ" then some ("METRIC", some "L")
  else none

/-- The units/zeros part of the Excellon parser state.  The constructor
default for `zeros` in the source is `some "L"`. -/
structure ExcHeaderState where
  zeros : Option String
  units : String
  deriving Repr, DecidableEq

/-- Embedding of the header branch
`match = self.units_re.match(eline); if match: self.zeros = match.group(2);
self.units = {"INCH": "IN", "METRIC": "MM"}[match.group(1)]`.
Returns `none` when the line does not match (the branch is not taken). -/
def applyUnitsLine (st : ExcHeaderState) (line : String) : Option ExcHeaderState :=
  match matchUnitsRe line with
  | some (u, z) => some { st with zeros := z, units := if u = "INCH" then "IN" else "MM" }
  | none => none

/-! ## Theorems for claims C1 and C10 -/

theorem takeWhile_all_eq {p : Char → Bool} :
    ∀ (l : List Char), (∀ c ∈ l, p c) → l.takeWhile p = l := by
  intro l h
  induction l with
  | nil => rfl
  | cons a t ih =>
      rw [List.takeWhile_cons p a t, if_pos (h a (List.mem_cons_self a t))]
      rw [ih (fun c hc => h c (List.mem_cons_of_mem a hc))]

theorem takeWhile_length_le {p : Char → Bool} :
    ∀ (l : List Char), (l.takeWhile p).length ≤ l.length := by
  intro l
  induction l with
  | nil => simp
  | cons a t ih =>
      rw [List.takeWhile_cons p a t]
      by_cases h : p a
      · rw [if_pos h]; simpa using ih
      · rw [if_neg h]; simp

theorem leadGroups_length (s : String) (hd : ∀ c ∈ s.toList, c.isDigit) :
    (leadGroup1 s).length + (leadGroup2 s).length = s.toList.length := by
  have h2 : leadGroup2 s = s.toList.drop (leadGroup1 s).length := by
    unfold leadGroup2
    apply takeWhile_all_eq
    intro c hc
    exact hd c (List.mem_of_mem_drop hc)
  rw [h2, List.length_drop]
  have hle : (leadGroup1 s).length ≤ s.toList.length := takeWhile_length_le s.toList
  omega

theorem pyFloatInt_digits (s : String) (hne : s.toList ≠ [])
    (hd : ∀ c ∈ s.toList, c.isDigit) : pyFloatInt s = (digitsVal s.toList : ℚ) := by
  unfold pyFloatInt
  cases h : s.toList with
  | nil => exact absurd h hne
  | cons a t =>
      have ha : a.isDigit := hd a (h ▸ List.mem_cons_self a t)
      have ha1 : a ≠ '-' := by
        intro hcon; rw [hcon] at ha; exact absurd ha (by decide)
      have ha2 : a ≠ '+' := by
        intro hcon; rw [hcon] at ha; exact absurd ha (by decide)
      split
      · next cs heq =>
          injection heq with h1 _
          exact absurd h1 ha1
      · next cs heq =>
          injection heq with h1 _
          exact absurd h1 ha2
      · rfl

/-- Claim C1 (amended).  For every nonempty digit string `s` (no sign, no
decimal point): with `zeros = "L"`, `parse_number` returns the integer value
of `s` divided by `10^(len(s) − 2)` — equivalently, `s` padded with trailing
zeros to 6 digits and then divided by 10000 — so `"015"` parses to 1.5 and
`"1500"` to 15.0; with `zeros = "T"` it returns the integer value divided by
10000, so `"015"` parses to 0.0015 and `"1500"` to 0.15. -/
theorem parse_number_characterization (s : String) (hne : s.toList ≠ [])
    (hd : ∀ c ∈ s.toList, c.isDigit) :
    parse_number (some "L") s = (digitsVal s.toList : ℚ) / (10 : ℚ) ^ ((s.toList.length : ℤ) - 2)
    ∧ parse_number (some "L") s
      = (digitsVal s.toList : ℚ) * (10 : ℚ) ^ ((6 : ℤ) - s.toList.length) / (10 : ℚ) ^ (4 : ℤ)
    ∧ parse_number (some "T") s = (digitsVal s.toList : ℚ) / 10000 := by
  have hlen := leadGroups_length s hd
  have hval := pyFloatInt_digits s hne hd
  have hexp : ((leadGroup2 s).length : ℤ) - 2 + (leadGroup1 s).length
      = (s.toList.length : ℤ) - 2 := by
    push_cast [← hlen]; ring
  constructor
  · unfold parse_number
    rw [if_pos rfl, hval, hexp]
  constructor
  · unfold parse_number
    rw [if_pos rfl, hval, hexp]
    rw [mul_div_assoc, ← zpow_sub₀ (by norm_num : (10:ℚ) ≠ 0)]
    have he : (6 : ℤ) - s.toList.length - 4 = -((s.toList.length : ℤ) - 2) := by ring
    rw [he, zpow_neg, ← div_eq_mul_inv]
  · unfold parse_number
    rw [if_neg (by decide), hval]

/-- Witness for `parse_number_characterization` at `s = "015"`. -/
theorem parse_number_characterization_witness :
    parse_number (some "L") "015"
      = (digitsVal "015".toList : ℚ) / (10 : ℚ) ^ (("015".toList.length : ℤ) - 2)
    ∧ parse_number (some "T") "015" = (digitsVal "015".toList : ℚ) / 10000 :=
  ⟨(parse_number_characterization "015" (by decide) (by decide)).1,
   (parse_number_characterization "015" (by decide) (by decide)).2.2⟩

/-- Counterexample to claim C1 as stated: with `zeros = "L"`, the string
`"015"` decodes to 1.5, not to `15/10^(6−1−2) = 0.015` (the claim's formula)
nor to 0.0015 (the claim's example); `"1500"` decodes to 15.0, not 0.15. -/
theorem parse_number_claim_counterexample :
    parse_number (some "L") "015" = 3 / 2
    ∧ (3 / 2 : ℚ) ≠ 15 / 10 ^ (3 : ℕ)
    ∧ (3 / 2 : ℚ) ≠ 15 / 10 ^ (4 : ℕ)
    ∧ parse_number (some "L") "1500" = 15
    ∧ (15 : ℚ) ≠ 3 / 20 := by
  refine ⟨?_, by norm_num, by norm_num, ?_, by norm_num⟩
  · have h := (parse_number_characterization "015" (by decide) (by decide)).1
    rw [h]
    have hd : digitsVal "015".toList = 15 := by rfl
    have hl : ("015".toList.length : ℤ) = 3 := by rfl
    rw [hd, hl]
    norm_num
  · have h := (parse_number_characterization "1500" (by decide) (by decide)).1
    rw [h]
    have hd : digitsVal "1500".toList = 1500 := by rfl
    have hl : ("1500".toList.length : ℤ) = 4 := by rfl
    rw [hd, hl]
    norm_num

/-- Claim C10.  A header units line `INCH` or `METRIC` without a `,LZ`/`,TZ`
suffix overwrites the `zeros` field with `none` (discarding whatever was
there, in particular the constructor default `"L"`), and under `zeros = none`
every period-free coordinate is decoded by the trailing-zeros rule, i.e.
divided by 10000. -/
theorem units_line_discards_zeros (st : ExcHeaderState) (line : String)
    (h : line = "INCH" ∨ line = "METRIC") :
    ∃ st', applyUnitsLine st line = some st'
      ∧ st'.zeros = none
      ∧ st'.zeros ≠ some "L"
      ∧ (∀ s : String, parse_number st'.zeros s = pyFloatInt s / 10000) := by
  rcases h with h | h <;> subst h
  · exact ⟨_, rfl, rfl, by decide, fun s => by unfold parse_number; rw [if_neg (by decide)]⟩
  · exact ⟨_, rfl, rfl, by decide, fun s => by unfold parse_number; rw [if_neg (by decide)]⟩

/-- Witness for `units_line_discards_zeros`: the default-state object
(`zeros = some "L"`) processing the line `"INCH"`. -/
theorem units_line_discards_zeros_witness :
    ∃ st', applyUnitsLine ⟨some "L", "IN"⟩ "INCH" = some st'
      ∧ st'.zeros = none
      ∧ st'.zeros ≠ some "L"
      ∧ (∀ s : String, parse_number st'.zeros s = pyFloatInt s / 10000) :=
  units_line_discards_zeros ⟨some "L", "IN"⟩ "INCH" (Or.inl rfl)


/-! ## Symbolic geometry values

Shapely geometry is modelled symbolically: each constructor records one of
the geometric operations the source performs, with exact rational
coordinates.  `affinity.translate` acts structurally on the constructors
whose coordinates it shifts and is recorded symbolically on rotated or
opaque geometry. -/

inductive Geo
  | disk (center : ℚ × ℚ) (radius : ℚ)
  | box (minx miny maxx maxy : ℚ)
  | polygon (pts : List (ℚ × ℚ))
  | capsule (p1 p2 : ℚ × ℚ) (radius : ℚ)
  | flatBuffer (p1 p2 : ℚ × ℚ) (halfwidth : ℚ)
  | squareBuffer (p1 p2 : ℚ × ℚ) (halfwidth : ℚ)
  | union (a b : Geo)
  | diff (a b : Geo)
  | rotateDeg (angle : ℚ) (g : Geo)
  | rotateDegCenter (angle : ℚ) (g : Geo)
  | translated (off : ℚ × ℚ) (g : Geo)
  | moireGeo (mods : List ℚ)
  deriving Repr, DecidableEq

/-- Embedding of `shapely.affinity.translate`.  On concrete shapes the
offset is applied to the stored coordinates; on symbolic shapes (rotated or
opaque geometry) the translation is recorded. -/
def translateBy (off : ℚ × ℚ) : Geo → Geo
  | .disk c r => .disk (c.1 + off.1, c.2 + off.2) r
  | .box a b c d => .box (a + off.1) (b + off.2) (c + off.1) (d + off.2)
  | .polygon pts => .polygon (pts.map (fun p => (p.1 + off.1, p.2 + off.2)))
  | .capsule p q r => .capsule (p.1 + off.1, p.2 + off.2) (q.1 + off.1, q.2 + off.2) r
  | .flatBuffer p q w => .flatBuffer (p.1 + off.1, p.2 + off.2) (q.1 + off.1, q.2 + off.2) w
  | .squareBuffer p q w => .squareBuffer (p.1 + off.1, p.2 + off.2) (q.1 + off.1, q.2 + off.2) w
  | .union a b => .union (translateBy off a) (translateBy off b)
  | .diff a b => .diff (translateBy off a) (translateBy off b)
  | .rotateDeg a g => .translated off (.rotateDeg a g)
  | .rotateDegCenter a g => .translated off (.rotateDegCenter a g)
  | .translated o g => .translated (o.1 + off.1, o.2 + off.2) g
  | .moireGeo mods => .translated off (.moireGeo mods)

/-! ## Aperture macros (camlib.py, class ApertureMacro) -/

/-- A primitive made by one of the `ApertureMacro.make_*` helpers:
`{"pol": int(...), "geometry": ...}`. -/
structure PrimGeo where
  pol : ℤ
  geometry : Geo
  deriving Repr, DecidableEq

/-- Embedding of `ApertureMacro.default2zero`: `x = [0.0]*n; x[0:na] = mods`.
Pads with zeros to length `n`; a longer list is returned as is (the Python
slice assignment then yields a list longer than `n`). -/
def default2zero (n : ℕ) (mods : List ℚ) : List ℚ :=
  if mods.length ≤ n then mods ++ List.replicate (n - mods.length) 0 else mods

/-- Embedding of `ApertureMacro.make_circle`.  A tuple-unpacking mismatch
(too many modifiers) raises `ValueError`. -/
def make_circle (mods : List ℚ) : Except PyErr PrimGeo :=
  match default2zero 4 mods with
  | [pol, dia, x, y] => .ok ⟨pyTrunc pol, .disk (x, y) (dia / 2)⟩
  | _ => .error .valueError

/-- Embedding of `ApertureMacro.make_vectorline`: the segment buffered with
flat caps (`cap_style=2`) by half the width, then rotated about the origin. -/
def make_vectorline (mods : List ℚ) : Except PyErr PrimGeo :=
  match default2zero 7 mods with
  | [pol, width, xs, ys, xe, ye, angle] =>
    .ok ⟨pyTrunc pol, .rotateDeg angle (.flatBuffer (xs, ys) (xe, ye) (width / 2))⟩
  | _ => .error .valueError

/-- Embedding of `ApertureMacro.make_centerline`. -/
def make_centerline (mods : List ℚ) : Except PyErr PrimGeo :=
  match default2zero 6 mods with
  | [pol, width, height, x, y, angle] =>
    .ok ⟨pyTrunc pol,
      .rotateDeg angle (.box (x - width / 2) (y - height / 2) (x + width / 2) (y + height / 2))⟩
  | _ => .error .valueError

/-- Embedding of `ApertureMacro.make_lowerleftline`. -/
def make_lowerleftline (mods : List ℚ) : Except PyErr PrimGeo :=
  match default2zero 6 mods with
  | [pol, width, height, x, y, angle] =>
    .ok ⟨pyTrunc pol, .rotateDeg angle (.box x y (x + width) (y + height))⟩
  | _ => .error .valueError

/-- Embedding of `ApertureMacro.make_outline`.  `range(n+1)` over a
non-integral float raises `TypeError`; a missing rotation modifier raises
`IndexError`; an incomplete vertex slice makes the `Polygon` constructor
fail, modelled as `ValueError`. -/
def make_outline (mods : List ℚ) : Except PyErr PrimGeo :=
  match mods.head? with
  | none => .error .indexError
  | some pol =>
    match mods.get? 1 with
    | none => .error .indexError
    | some nq =>
      if nq.den ≠ 1 then .error .typeError else
      let n := (pyTrunc nq).toNat
      match (List.range (n + 1)).mapM (fun i =>
          match mods.get? (2 * i + 2), mods.get? (2 * i + 3) with
          | some a, some b => some ((a, b) : ℚ × ℚ)
          | _, _ => none) with
      | none => .error .valueError
      | some pts =>
        match mods.get? (2 * n + 4) with
        | none => .error .indexError
        | some angle => .ok ⟨pyTrunc pol, .rotateDeg angle (.polygon pts)⟩

/-- Embedding of `ApertureMacro.make_polygon`: vertices at angles `2πi/n` on
the circle of radius `dia/2` about `(x, y)`, rotated about the origin. -/
def make_polygon (cosf sinf : ℚ → ℚ) (mods : List ℚ) : Except PyErr PrimGeo :=
  match default2zero 6 mods with
  | [pol, nverts, x, y, dia, angle] =>
    if nverts.den ≠ 1 then .error .typeError else
    .ok ⟨pyTrunc pol, .rotateDeg angle (.polygon ((List.range (pyTrunc nverts).toNat).map
      (fun i : ℕ => (x + 1 / 2 * dia * cosf (2 * piQ * i / nverts),
                 y + 1 / 2 * dia * sinf (2 * piQ * i / nverts)))))⟩
  | _ => .error .valueError

/-- Embedding of `ApertureMacro.make_moire`.  The ring-accumulation loop
terminates on a condition of the concrete geometry (`len(ring.interiors)`),
which the symbolic embedding cannot evaluate; the resulting compound shape
is therefore recorded opaquely from its nine modifiers. -/
def make_moire (mods : List ℚ) : Except PyErr PrimGeo :=
  match default2zero 9 mods with
  | [x, y, dia, thickness, gap, nrings, cross_th, cross_len, angle] =>
    .ok ⟨1, .moireGeo [x, y, dia, thickness, gap, nrings, cross_th, cross_len, angle]⟩
  | _ => .error .valueError

/-- Embedding of `ApertureMacro.make_thermal`: annulus minus the union of a
horizontal and a vertical bar buffered with square caps (`cap_style=3`). -/
def make_thermal (mods : List ℚ) : Except PyErr PrimGeo :=
  match default2zero 6 mods with
  | [x, y, dout, din, t, _angle] =>
    .ok ⟨1, ((Geo.disk (x, y) (dout / 2)).diff (Geo.disk (x, y) (din / 2))).diff
      ((Geo.squareBuffer (x - dout / 2, y) (x + dout / 2, y) (t / 2)).union
        (Geo.squareBuffer (x, y - dout / 2) (x, y + dout / 2) (t / 2)))⟩
  | _ => .error .valueError

/-- The `makers` dictionary of `make_geometry`, keyed by `str(int(code))`;
an unknown code raises `KeyError`. -/
def applyMaker (cosf sinf : ℚ → ℚ) (code : ℤ) (mods : List ℚ) : Except PyErr PrimGeo :=
  if code = 1 then make_circle mods
  else if code = 2 ∨ code = 20 then make_vectorline mods
  else if code = 21 then make_centerline mods
  else if code = 22 then make_lowerleftline mods
  else if code = 4 then make_outline mods
  else if code = 5 then make_polygon cosf sinf mods
  else if code = 6 then make_moire mods
  else if code = 7 then make_thermal mods
  else .error .keyError

/-- One step of the polarity composition in `make_geometry`:
seed at a dark primitive when nothing is accumulated yet; union dark,
difference clear; `None.difference` (clear with nothing accumulated) raises
`AttributeError`; other exposure values leave the accumulation untouched. -/
def composeStep (acc : Option Geo) (pg : PrimGeo) : Except PyErr (Option Geo) :=
  match acc with
  | none =>
    if pg.pol = 1 then .ok (some pg.geometry)
    else if pg.pol = 0 then .error .attrError
    else .ok none
  | some g =>
    if pg.pol = 1 then .ok (some (.union g pg.geometry))
    else if pg.pol = 0 then .ok (some (.diff g pg.geometry))
    else .ok (some g)

/-- Left-to-right polarity composition of a list of made primitives. -/
def composePrims : Option Geo → List PrimGeo → Except PyErr (Option Geo)
  | acc, [] => .ok acc
  | acc, p :: ps =>
    match composeStep acc p with
    | .error e => .error e
    | .ok acc2 => composePrims acc2 ps

/-- Python `str.split(sep)` for a one-character separator, by structural
recursion on the character list (`"a**b" ↦ ["a", "", "b"]`). -/
def splitOnChar (sep : Char) : List Char → List (List Char)
  | [] => [[]]
  | c :: rest =>
    match splitOnChar sep rest with
    | [] => [[c]]
    | cur :: others => if c = sep then [] :: cur :: others else (c :: cur) :: others

/-- Python `str.strip(chars)` on both ends. -/
def stripChars (s : String) (cs : List Char) : String :=
  String.mk (((s.toList.dropWhile (· ∈ cs)).reverse.dropWhile (· ∈ cs)).reverse)

/-- Parse of a plain decimal literal (optional sign, digits, optional
fraction), the numeric-literal fragment of what Python `float()`/`eval`
accept. -/
def parseDecimal (s : String) : Option ℚ :=
  let go : List Char → ℚ → Option ℚ := fun cs sign =>
    let intPart := cs.takeWhile Char.isDigit
    let rest := cs.drop intPart.length
    match rest with
    | [] => if intPart.isEmpty then none else some (sign * (digitsVal intPart : ℚ))
    | '.' :: fr =>
      if fr.all Char.isDigit ∧ ¬(intPart.isEmpty ∧ fr.isEmpty) then
        some (sign * ((digitsVal intPart : ℚ) + (digitsVal fr : ℚ) / ((10 ^ fr.length : ℕ) : ℚ)))
      else none
    | _ => none
  match s.toList with
  | '-' :: cs => go cs (-1)
  | '+' :: cs => go cs 1
  | cs => go cs 1

/-- Lookup in an association list of macro-local variables. -/
def lookupVar (lv : List (String × ℚ)) (name : String) : Option ℚ := lv.lookup name

/-- Update-or-append in the local-variable table (`self.locvars[var] = …`). -/
def setVar (lv : List (String × ℚ)) (name : String) (v : ℚ) : List (String × ℚ) :=
  match lv with
  | [] => [(name, v)]
  | (k, w) :: rest => if k = name then (k, v) :: rest else (k, w) :: setVar rest name v

/-- Evaluation of one comma-separated element of a macro part, modelling the
source's substitution of known `$`-variables, the replacement of remaining
`$…` by 0, and the Python `eval` of the result.  The embedding covers
elements that are a single numeric literal or a single `$`-variable
reference — the only element forms the verified claims exercise; general
arithmetic expressions passed to `eval` are outside the embedding and are
modelled as evaluation failures (`ValueError`). -/
def evalElement (lv : List (String × ℚ)) (e : String) : Except PyErr ℚ :=
  match e.toList with
  | '$' :: rest =>
    match lookupVar lv (String.mk rest) with
    | some v => .ok v
    | none => .ok 0
  | _ =>
    match parseDecimal e with
    | some v => .ok v
    | none => .error .valueError

/-- Match of `amvar_re = ^\$([0-9a-zA-z]+)=(.*)`: a variable assignment
part, returning (name, value expression). -/
def matchAmVar (p : String) : Option (String × String) :=
  match p.toList with
  | '$' :: rest =>
    let name := rest.takeWhile (fun c => c.isAlphanum)
    if name.isEmpty then none
    else
      match rest.drop name.length with
      | '=' :: val => some (String.mk name, String.mk val)
      | _ => none
  | _ => none

/-- Match of `amcomm_re = ^0(.*)`: a comment part. -/
def matchAmComm (p : String) : Bool :=
  match p.toList with
  | '0' :: _ => true
  | _ => false

/-- Match of `amprim_re = ^[1-9].*`: a primitive part. -/
def matchAmPrim (p : String) : Bool :=
  match p.toList with
  | c :: _ => c.isDigit ∧ c ≠ '0'
  | _ => false

/-- Processing of the `*`-separated parts of a macro body, mirroring the
loop of `ApertureMacro.parse_content`: comments are skipped, variable
assignments evaluate their right-hand side and update the local table,
primitive parts evaluate their comma-separated elements, anything else is
warned about and skipped. -/
def parseParts : List (String × ℚ) → List String → List (List ℚ)
    → Except PyErr (List (String × ℚ) × List (List ℚ))
  | lv, [], acc => .ok (lv, acc.reverse)
  | lv, p :: ps, acc =>
    if matchAmComm p then parseParts lv ps acc
    else
      match matchAmVar p with
      | some (name, val) =>
        match evalElement lv val with
        | .error e => .error e
        | .ok v => parseParts (setVar lv name v) ps acc
      | none =>
        if matchAmPrim p then
          match ((splitOnChar ',' p.toList).map String.mk).mapM (fun e =>
              match evalElement lv e with
              | .error _ => none
              | .ok v => some v) with
          | none => .error .valueError
          | some elems => parseParts lv ps (elems :: acc)
        else parseParts lv ps acc

/-- Embedding of `ApertureMacro.parse_content`: strip newlines and
leading/trailing blanks and `*`, split on `*`, process every part. -/
def parse_content (lv : List (String × ℚ)) (raw : String) :
    Except PyErr (List (String × ℚ) × List (List ℚ)) :=
  let cleaned := stripChars
    (String.mk (raw.toList.filter (fun c => c ≠ '\n' ∧ c ≠ '\r'))) [' ', '*']
  parseParts lv ((splitOnChar '*' cleaned.toList).map String.mk) []

/-- Binding of the positional modifiers: `self.locvars[str(i+1)] = modifiers[i]`. -/
def bindMods (mods : List ℚ) : List (String × ℚ) :=
  mods.enum.map (fun p => (toString (p.1 + 1), p.2))

/-- The make-and-compose loop of `make_geometry` over the parsed primitives. -/
def runPrims (cosf sinf : ℚ → ℚ) : Option Geo → List (List ℚ) → Except PyErr (Option Geo)
  | acc, [] => .ok acc
  | acc, p :: ps =>
    match p.head? with
    | none => .error .indexError
    | some c0 =>
      match applyMaker cosf sinf (pyTrunc c0) (p.drop 1) with
      | .error e => .error e
      | .ok pg =>
        match composeStep acc pg with
        | .error e => .error e
        | .ok acc2 => runPrims cosf sinf acc2 ps

/-- Embedding of `ApertureMacro.make_geometry`: convert the textual
modifiers with `float()`, bind them as `$1…$N`, re-parse the raw body and
compose the primitive geometries by exposure polarity. -/
def make_geometry (cosf sinf : ℚ → ℚ) (modStrs : List String) (raw : String) :
    Except PyErr (Option Geo) :=
  match modStrs.mapM parseDecimal with
  | none => .error .valueError
  | some mods =>
    match parse_content (bindMods mods) raw with
    | .error e => .error e
    | .ok (_, prims) => runPrims cosf sinf none prims

/-! ## Gerber flash geometry (camlib.py, Gerber.create_flash_geometry) -/

/-- A Gerber aperture, tagged as in the `apertures` table built by
`Gerber.aperture_parse`.  For an `AM` aperture the raw macro body and the
textual modifier list from the `%AD` definition are stored. -/
inductive Aperture
  | C (size : ℚ)
  | R (width height : ℚ)
  | O (width height : ℚ)
  | P (diam : ℚ) (nVertices : ℤ) (rotation : Option ℚ)
  | AM (raw : String) (modifiers : List String)
  deriving Repr, DecidableEq

/-- Vertices of the regular-polygon (`P`) flash:
`loc + diam·(cos(2πi/n), sin(2πi/n))` for `0 ≤ i < n` — the source uses the
full `diam`, not `diam/2`, as the distance from the flash point. -/
def flashPolyVerts (cosf sinf : ℚ → ℚ) (loc : ℚ × ℚ) (diam : ℚ) (n : ℤ) : List (ℚ × ℚ) :=
  (List.range n.toNat).map (fun i : ℕ =>
    (loc.1 + diam * cosf (2 * piQ * i / n), loc.2 + diam * sinf (2 * piQ * i / n)))

/-- Embedding of the static `Gerber.create_flash_geometry`.  The `P` branch
is rotated about the bounding-box center (shapely's default origin); the
`AM` branch instantiates the macro and translates the result to the flash
location, raising `AttributeError` if the macro produced no geometry. -/
def createFlashGeometry (cosf sinf : ℚ → ℚ) (loc : ℚ × ℚ) (ap : Aperture) :
    Except PyErr (Option Geo) :=
  match ap with
  | .C size => .ok (some (.disk loc (size / 2)))
  | .R w h =>
    .ok (some (.box (loc.1 - w / 2) (loc.2 - h / 2) (loc.1 + w / 2) (loc.2 + h / 2)))
  | .O w h =>
    if w > h then
      .ok (some (.capsule (loc.1 + (w - h) / 2, loc.2) (loc.1 - (w - h) / 2, loc.2) (h / 2)))
    else
      .ok (some (.capsule (loc.1, loc.2 + (h - w) / 2) (loc.1, loc.2 - (h - w) / 2) (w / 2)))
  | .P diam n rot =>
    match rot with
    | some r =>
      .ok (some (.rotateDegCenter r (.polygon (flashPolyVerts cosf sinf loc diam n))))
    | none => .ok (some (.polygon (flashPolyVerts cosf sinf loc diam n)))
  | .AM raw modStrs =>
    match make_geometry cosf sinf modStrs raw with
    | .error e => .error e
    | .ok none => .error .attrError
    | .ok (some g) => .ok (some (translateBy loc g))

/-! ## Theorems for claims C5, C9 and C7 -/

theorem composePrims_some (g : Geo) (l : List PrimGeo) :
    ∃ r : Geo, composePrims (some g) l = .ok (some r) := by
  induction l generalizing g with
  | nil => exact ⟨g, rfl⟩
  | cons p ps ih =>
      by_cases h1 : p.pol = 1
      · simpa [composePrims, composeStep, h1] using ih (Geo.union g p.geometry)
      · by_cases h0 : p.pol = 0
        · simpa [composePrims, composeStep, h1, h0] using ih (Geo.diff g p.geometry)
        · simpa [composePrims, composeStep, h1, h0] using ih g

/-- Claim C9.  `make_geometry`'s polarity composition is well defined
exactly when no clear primitive is composed before a dark one: once a dark
primitive has seeded the accumulator the difference branch never sees an
absent geometry (the fold always succeeds); if the first composed primitive
is dark the whole composition succeeds; if the first composed primitive is
clear, `None.difference` is reached and the call fails with
`AttributeError`; more generally the composition succeeds whenever every
clear primitive is preceded by some dark primitive; instantiating the macro
`CIRC` with a clear first primitive fails at the entry point. -/
theorem make_geometry_polarity_safety :
    (∀ (g : Geo) (l : List PrimGeo), ∃ r : Geo, composePrims (some g) l = .ok (some r))
    ∧ (∀ (p : PrimGeo) (l : List PrimGeo), p.pol = 1 →
        ∃ r : Geo, composePrims none (p :: l) = .ok (some r))
    ∧ (∀ (p : PrimGeo) (l : List PrimGeo), p.pol = 0 →
        composePrims none (p :: l) = .error .attrError)
    ∧ (∀ l : List PrimGeo,
        (∀ pre p post, l = pre ++ p :: post → p.pol = 0 → ∃ q ∈ pre, q.pol = 1) →
        ∃ r, composePrims none l = .ok r)
    ∧ (∀ cosf sinf : ℚ → ℚ,
        make_geometry cosf sinf ["0.2", "0.5", "0.5"] "1,0,$1,$2,$3*%" = .error .attrError) := by
  refine ⟨composePrims_some, ?_, ?_, ?_, ?_⟩
  · intro p l hp
    simpa [composePrims, composeStep, hp] using composePrims_some p.geometry l
  · intro p l hp
    simp [composePrims, composeStep, hp]
  · intro l
    induction l with
    | nil => exact fun _ => ⟨none, rfl⟩
    | cons p ps ih =>
        intro hpre
        by_cases h1 : p.pol = 1
        · obtain ⟨r, hr⟩ := composePrims_some p.geometry ps
          exact ⟨some r, by simp [composePrims, composeStep, h1, hr]⟩
        · have h0 : p.pol ≠ 0 := by
            intro h0
            obtain ⟨q, hq, _⟩ := hpre [] p ps rfl h0
            simp at hq
          have hps : ∀ pre q post, ps = pre ++ q :: post → q.pol = 0 → ∃ x ∈ pre, x.pol = 1 := by
            intro pre q post heq hq0
            obtain ⟨x, hx, hx1⟩ := hpre (p :: pre) q post (by rw [heq]; rfl) hq0
            rcases List.mem_cons.1 hx with rfl | hx2
            · exact absurd hx1 h1
            · exact ⟨x, hx2, hx1⟩
          obtain ⟨r, hr⟩ := ih hps
          exact ⟨r, by simp [composePrims, composeStep, h1, h0, hr]⟩
  · intro cosf sinf
    with_unfolding_all rfl

/-- Witness for `make_geometry_polarity_safety`: concrete dark-first and
clear-first primitive lists. -/
theorem make_geometry_polarity_safety_witness :
    (∃ r : Geo, composePrims (some (Geo.disk (0, 0) 1)) [⟨0, Geo.disk (0, 0) 2⟩]
      = .ok (some r))
    ∧ (∃ r : Geo, composePrims none [⟨1, Geo.disk (0, 0) 1⟩, ⟨0, Geo.disk (0, 0) 2⟩]
      = .ok (some r))
    ∧ composePrims none [⟨0, Geo.disk (0, 0) 2⟩] = .error .attrError
    ∧ (∃ r, composePrims none ([] : List PrimGeo) = .ok r) := by
  refine ⟨make_geometry_polarity_safety.1 _ _, ?_, ?_, ?_⟩
  · exact make_geometry_polarity_safety.2.1 ⟨1, Geo.disk (0, 0) 1⟩ _ rfl
  · exact make_geometry_polarity_safety.2.2.1 ⟨0, Geo.disk (0, 0) 2⟩ [] rfl
  · refine make_geometry_polarity_safety.2.2.2.1 [] ?_
    intro pre p post heq hp0
    exact absurd heq (by simp)

/-- Claim C5.  Macro instantiation binds the i-th modifier to `$(i+1)`,
re-parses the body, and composes the primitive shapes left to right: a dark
primitive seeds the region when nothing is accumulated, each further dark
primitive is unioned and each clear primitive subtracted; in particular the
macro `%AMCIRC*1,1,$1,$2,$3*%` instantiated with modifiers `[0.2, 0.5, 0.5]`
yields the disk of radius 0.1 centered at (0.5, 0.5), and flashing it at
(1, 1) yields the disk of radius 0.1 centered at (1.5, 1.5). -/
theorem aperture_macro_instantiation :
    (∀ (mods : List ℚ) (i : ℕ),
      (bindMods mods)[i]? = (mods[i]?).map (fun m => (toString (i + 1), m)))
    ∧ (∀ (g : Geo) (rest : List PrimGeo),
        composePrims none (⟨1, g⟩ :: rest) = composePrims (some g) rest)
    ∧ (∀ (a g : Geo) (rest : List PrimGeo),
        composePrims (some a) (⟨1, g⟩ :: rest) = composePrims (some (.union a g)) rest)
    ∧ (∀ (a g : Geo) (rest : List PrimGeo),
        composePrims (some a) (⟨0, g⟩ :: rest) = composePrims (some (.diff a g)) rest)
    ∧ (∀ cosf sinf : ℚ → ℚ,
        make_geometry cosf sinf ["0.2", "0.5", "0.5"] "1,1,$1,$2,$3*%"
          = .ok (some (.disk (1/2, 1/2) (1/10)))
        ∧ createFlashGeometry cosf sinf (1, 1) (.AM "1,1,$1,$2,$3*%" ["0.2", "0.5", "0.5"])
          = .ok (some (.disk (3/2, 3/2) (1/10)))) := by
  refine ⟨?_, fun g rest => rfl, fun a g rest => rfl, fun a g rest => rfl,
    fun cosf sinf => ⟨by with_unfolding_all rfl, by with_unfolding_all rfl⟩⟩
  intro mods i
  unfold bindMods
  rw [List.getElem?_map, List.getElem?_enum]
  cases mods[i]? <;> rfl

/-- Claim C7.  A regular-polygon (`P`) aperture with parameters `diam` and
`nVertices` flashed at `p` produces the polygon whose i-th vertex is
`p + diam·(cos(2πi/n), sin(2πi/n))` — `diam` is used as the
circumscribed-circle radius, not as a diameter — wrapped in a rotation when
the `rotation` parameter is present; under the Pythagorean identity for the
sampling functions every vertex lies at distance exactly `diam` from `p`. -/
theorem create_flash_P (cosf sinf : ℚ → ℚ) (p : ℚ × ℚ) (diam : ℚ) (n : ℤ) :
    createFlashGeometry cosf sinf p (.P diam n none)
      = .ok (some (.polygon (flashPolyVerts cosf sinf p diam n)))
    ∧ (∀ r, createFlashGeometry cosf sinf p (.P diam n (some r))
        = .ok (some (.rotateDegCenter r (.polygon (flashPolyVerts cosf sinf p diam n)))))
    ∧ (∀ i : ℕ, i < n.toNat → (flashPolyVerts cosf sinf p diam n)[i]?
        = some (p.1 + diam * cosf (2 * piQ * i / n), p.2 + diam * sinf (2 * piQ * i / n)))
    ∧ ((∀ θ, cosf θ ^ 2 + sinf θ ^ 2 = 1) →
        ∀ v ∈ flashPolyVerts cosf sinf p diam n,
          (v.1 - p.1) ^ 2 + (v.2 - p.2) ^ 2 = diam ^ 2) := by
  refine ⟨rfl, fun r => rfl, ?_, ?_⟩
  · intro i hi
    unfold flashPolyVerts
    rw [List.getElem?_map, List.getElem?_range hi]
    rfl
  · intro hpy v hv
    unfold flashPolyVerts at hv
    obtain ⟨i, _, rfl⟩ := List.mem_map.1 hv
    have h := hpy (2 * piQ * i / n)
    simp only []
    linear_combination diam ^ 2 * h

/-- Witness for `create_flash_P` with a Pythagorean pair of constant
sampling functions. -/
theorem create_flash_P_witness :
    createFlashGeometry (fun _ => 3/5) (fun _ => 4/5) (1, 2) (.P 2 3 none)
      = .ok (some (.polygon (flashPolyVerts (fun _ => 3/5) (fun _ => 4/5) (1, 2) 2 3)))
    ∧ (∀ v ∈ flashPolyVerts (fun _ => 3/5) (fun _ => 4/5) (1, 2) 2 3,
        (v.1 - 1) ^ 2 + (v.2 - 2) ^ 2 = 2 ^ 2) :=
  ⟨(create_flash_P (fun _ => 3/5) (fun _ => 4/5) (1, 2) 2 3).1,
   (create_flash_P (fun _ => 3/5) (fun _ => 4/5) (1, 2) 2 3).2.2.2 (fun θ => by norm_num)⟩

/-! ## Excellon object and unit conversion (camlib.py, Geometry.convert_units,
Excellon.scale, Excellon.create_geometry, Excellon.convert_units) -/

/-- Entry of `Excellon.drills`: a point and the name of the tool. -/
structure Drill where
  point : ℚ × ℚ
  tool : String
  deriving Repr, DecidableEq

/-- Embedding of an Excellon object.  `tools` maps tool names to the `"C"`
(diameter) entry; `solid_geometry` is the list of disks (center, radius)
produced by `create_geometry`. -/
structure ExcellonObj where
  units : String
  zeros : Option String
  tools : List (String × ℚ)
  drills : List Drill
  solid_geometry : List ((ℚ × ℚ) × ℚ)
  deriving Repr, DecidableEq

/-- Embedding of `Excellon.create_geometry`: one disk of radius
`tools[drill.tool]/2` per drill; a missing tool raises `KeyError`. -/
def create_geometry : List (String × ℚ) → List Drill → Except PyErr (List ((ℚ × ℚ) × ℚ))
  | _, [] => .ok []
  | tools, d :: ds =>
    match tools.lookup d.tool with
    | none => .error .keyError
    | some dia =>
      match create_geometry tools ds with
      | .error e => .error e
      | .ok rest => .ok ((d.point, dia / 2) :: rest)

/-- Scaling of the drill list about the origin, as in `Excellon.scale`
(`affinity.scale(drill['point'], factor, factor, origin=(0, 0))`). -/
def scaleDrills (ds : List Drill) (factor : ℚ) : List Drill :=
  ds.map (fun d => { d with point := (d.point.1 * factor, d.point.2 * factor) })

/-- Scaling of the tool diameters, as in `Excellon.convert_units`
(`self.tools[tname]["C"] *= factor`). -/
def scaleTools (ts : List (String × ℚ)) (factor : ℚ) : List (String × ℚ) :=
  ts.map (fun p => (p.1, p.2 * factor))

/-- Model of Python `str.upper()` on a string. -/
def pyUpper (s : String) : String := String.mk (s.toList.map Char.toUpper)

/-- Embedding of `Excellon.scale`: scales the drill points and re-creates the
solid geometry. -/
def excellonScale (e : ExcellonObj) (factor : ℚ) : Except PyErr ExcellonObj :=
  match create_geometry e.tools (scaleDrills e.drills factor) with
  | .error err => .error err
  | .ok solid => .ok { e with drills := scaleDrills e.drills factor, solid_geometry := solid }

/-- Embedding of `Geometry.convert_units` as inherited by `Excellon`: if the
requested units (case-insensitively) equal the current ones, return factor 1
without touching the object; otherwise set `units`, call `scale` with factor
25.4 (to MM) or 1/25.4 (to IN), and return the factor.  The float `1/25.4`
is modelled by the exact rational `5/127`. -/
def geometryConvertUnits (e : ExcellonObj) (units : String) :
    Except PyErr (ExcellonObj × ℚ) :=
  if pyUpper units = pyUpper e.units then .ok (e, 1)
  else if pyUpper units = "MM" then
    match excellonScale { e with units := units } (127 / 5) with
    | .error err => .error err
    | .ok e2 => .ok (e2, 127 / 5)
  else if pyUpper units = "IN" then
    match excellonScale { e with units := units } (5 / 127) with
    | .error err => .error err
    | .ok e2 => .ok (e2, 5 / 127)
  else .ok (e, 1)

/-- Embedding of `Excellon.convert_units`: the inherited conversion, then the
tool diameters are multiplied by the factor and the geometry re-created. -/
def excellonConvertUnits (e : ExcellonObj) (units : String) :
    Except PyErr (ExcellonObj × ℚ) :=
  match geometryConvertUnits e units with
  | .error err => .error err
  | .ok (e1, factor) =>
    match create_geometry (scaleTools e1.tools factor) e1.drills with
    | .error err => .error err
    | .ok solid =>
      .ok ({ e1 with tools := scaleTools e1.tools factor, solid_geometry := solid }, factor)

theorem lookup_scaleTools (ts : List (String × ℚ)) (f : ℚ) (t : String) :
    (scaleTools ts f).lookup t = (ts.lookup t).map (· * f) := by
  induction ts with
  | nil => rfl
  | cons p r ih =>
      unfold scaleTools at ih ⊢
      simp only [List.map_cons, List.lookup]
      cases hbe : (t == p.1) with
      | false => exact ih
      | true => rfl

theorem create_geometry_scaleTools {ts : List (String × ℚ)} {ds : List Drill}
    {s : List ((ℚ × ℚ) × ℚ)} (f : ℚ) (h : create_geometry ts ds = .ok s) :
    create_geometry (scaleTools ts f) ds = .ok (s.map (fun x => (x.1, x.2 * f))) := by
  induction ds generalizing s with
  | nil =>
      unfold create_geometry at h
      cases h
      rfl
  | cons d r ih =>
      unfold create_geometry at h
      cases hl : ts.lookup d.tool with
      | none => rw [hl] at h; cases h
      | some dia =>
          rw [hl] at h
          cases hr : create_geometry ts r with
          | error e2 => rw [hr] at h; cases h
          | ok rest =>
              rw [hr] at h
              cases h
              have hmul2 : dia * f / 2 = dia / 2 * f := by ring
              simp only [create_geometry, lookup_scaleTools, hl, Option.map, ih hr,
                List.map_cons, hmul2]

theorem create_geometry_scaleDrills {ts : List (String × ℚ)} {ds : List Drill}
    {s : List ((ℚ × ℚ) × ℚ)} (g : ℚ) (h : create_geometry ts ds = .ok s) :
    create_geometry ts (scaleDrills ds g)
      = .ok (s.map (fun x => ((x.1.1 * g, x.1.2 * g), x.2))) := by
  induction ds generalizing s with
  | nil =>
      unfold create_geometry at h
      cases h
      rfl
  | cons d r ih =>
      unfold scaleDrills
      unfold create_geometry at h ⊢
      simp only [List.map_cons]
      cases hl : ts.lookup d.tool with
      | none => rw [hl] at h; cases h
      | some dia =>
          rw [hl] at h
          cases hr : create_geometry ts r with
          | error e => rw [hr] at h; cases h
          | ok rest =>
              rw [hr] at h
              cases h
              have ihr := ih hr
              unfold scaleDrills at ihr
              rw [ihr]
              rfl

theorem map_pair_id {α : Type} (l : List (α × ℚ)) (f : ℚ → ℚ) (hf : ∀ x, f x = x) :
    l.map (fun p => (p.1, f p.2)) = l := by
  induction l with
  | nil => rfl
  | cons a r ih => simp [hf, ih]

theorem scaleDrills_comp (ds : List Drill) (a b : ℚ) :
    scaleDrills (scaleDrills ds a) b
      = ds.map (fun d => { d with point := (d.point.1 * a * b, d.point.2 * a * b) }) := by
  unfold scaleDrills
  rw [List.map_map]
  rfl

theorem scaleDrills_id (ds : List Drill) (a b : ℚ) (hab : a * b = 1) :
    scaleDrills (scaleDrills ds a) b = ds := by
  rw [scaleDrills_comp]
  have : ∀ d : Drill, ({ d with point := (d.point.1 * a * b, d.point.2 * a * b) } : Drill) = d := by
    intro d
    have h1 : d.point.1 * a * b = d.point.1 := by rw [mul_assoc, hab, mul_one]
    have h2 : d.point.2 * a * b = d.point.2 := by rw [mul_assoc, hab, mul_one]
    cases d with
    | mk pt t => simp_all
  calc ds.map _ = ds.map id := List.map_congr_left (fun d _ => this d)
  _ = ds := List.map_id ds

theorem excellonConvertUnits_same (x : ExcellonObj) (s : List ((ℚ × ℚ) × ℚ))
    (hx : x.units = "IN")
    (hcg : create_geometry (scaleTools x.tools 1) x.drills = .ok s) :
    excellonConvertUnits x "IN"
      = .ok ({ x with tools := scaleTools x.tools 1, solid_geometry := s }, 1) := by
  unfold excellonConvertUnits geometryConvertUnits
  rw [hx]
  rw [if_pos (by decide)]
  simp only [hcg]
  rw [hx]

theorem excellonConvertUnits_toMM (x : ExcellonObj) (s1 s2 : List ((ℚ × ℚ) × ℚ))
    (hx : x.units = "IN")
    (hcg1 : create_geometry x.tools (scaleDrills x.drills (127/5)) = .ok s1)
    (hcg2 : create_geometry (scaleTools x.tools (127/5)) (scaleDrills x.drills (127/5))
      = .ok s2) :
    excellonConvertUnits x "MM"
      = .ok ({ x with
              units := "MM"
              tools := scaleTools x.tools (127/5)
              drills := scaleDrills x.drills (127/5)
              solid_geometry := s2 }, 127/5) := by
  unfold excellonConvertUnits geometryConvertUnits excellonScale
  rw [hx]
  rw [if_neg (by decide), if_pos (by decide)]
  simp only [hcg1, hcg2]

theorem excellonConvertUnits_toIN (x : ExcellonObj) (s1 s2 : List ((ℚ × ℚ) × ℚ))
    (hx : x.units = "MM")
    (hcg1 : create_geometry x.tools (scaleDrills x.drills (5/127)) = .ok s1)
    (hcg2 : create_geometry (scaleTools x.tools (5/127)) (scaleDrills x.drills (5/127))
      = .ok s2) :
    excellonConvertUnits x "IN"
      = .ok ({ x with
              units := "IN"
              tools := scaleTools x.tools (5/127)
              drills := scaleDrills x.drills (5/127)
              solid_geometry := s2 }, 5/127) := by
  unfold excellonConvertUnits geometryConvertUnits excellonScale
  rw [hx]
  rw [if_neg (by decide), if_neg (by decide), if_pos (by decide)]
  simp only [hcg1, hcg2]

/-- Claim C8.  On an Excellon object in inches, `convert_units("MM")`
multiplies every drill coordinate and every tool diameter by 25.4 and sets
the units to MM; a subsequent `convert_units("IN")` multiplies them by
1/25.4 and restores the original object exactly (hence within any relative
error bound); converting to the units the object already has returns the
object unchanged with factor 1. -/
theorem convert_units_roundtrip (e : ExcellonObj) (h : e.units = "IN")
    (hs : create_geometry e.tools e.drills = .ok e.solid_geometry) :
    excellonConvertUnits e "IN" = .ok (e, 1)
    ∧ ∃ e1, excellonConvertUnits e "MM" = .ok (e1, 127 / 5)
      ∧ e1.units = "MM"
      ∧ e1.drills = scaleDrills e.drills (127 / 5)
      ∧ e1.tools = scaleTools e.tools (127 / 5)
      ∧ excellonConvertUnits e1 "IN" = .ok (e, 5 / 127) := by
  have hmul : (127 / 5 : ℚ) * (5 / 127) = 1 := by norm_num
  have hsT := create_geometry_scaleTools (1 : ℚ) hs
  have hdm := create_geometry_scaleDrills (127 / 5 : ℚ) hs
  have htm := create_geometry_scaleTools (127 / 5 : ℚ) hdm
  have hdd : scaleDrills (scaleDrills e.drills (127 / 5)) (5 / 127) = e.drills :=
    scaleDrills_id _ _ _ hmul
  have htt : scaleTools (scaleTools e.tools (127 / 5)) (5 / 127) = e.tools := by
    unfold scaleTools
    rw [List.map_map]
    have hp : ∀ p : String × ℚ, ((fun p : String × ℚ => (p.1, p.2 * (5 / 127))) ∘
        fun p : String × ℚ => (p.1, p.2 * (127 / 5))) p = p := by
      intro p
      simp only [Function.comp]
      rw [mul_assoc, hmul, mul_one]
    calc e.tools.map _ = e.tools.map id := List.map_congr_left (fun p _ => hp p)
    _ = e.tools := List.map_id e.tools
  constructor
  · rw [excellonConvertUnits_same e _ h hsT]
    have h1 : scaleTools e.tools 1 = e.tools := map_pair_id _ _ (fun x => mul_one x)
    have h2 : e.solid_geometry.map (fun x => (x.1, x.2 * 1)) = e.solid_geometry :=
      map_pair_id _ _ (fun x => mul_one x)
    rw [h1, h2]
  · refine ⟨_, excellonConvertUnits_toMM e _ _ h hdm htm, rfl, rfl, rfl, ?_⟩
    have hback1 := create_geometry_scaleTools (127 / 5 : ℚ) hs
    have hcg1 : create_geometry (scaleTools e.tools (127 / 5))
        (scaleDrills (scaleDrills e.drills (127 / 5)) (5 / 127))
        = .ok (e.solid_geometry.map (fun x => (x.1, x.2 * (127 / 5)))) := by
      rw [hdd]; exact hback1
    have hcg2 : create_geometry (scaleTools (scaleTools e.tools (127 / 5)) (5 / 127))
        (scaleDrills (scaleDrills e.drills (127 / 5)) (5 / 127))
        = .ok e.solid_geometry := by
      rw [hdd, htt]; exact hs
    rw [excellonConvertUnits_toIN _ _ _ rfl hcg1 hcg2]
    simp only [htt, hdd]
    rw [← h]

/-- Witness for `convert_units_roundtrip` on a one-tool, one-drill object. -/
theorem convert_units_roundtrip_witness :
    excellonConvertUnits ⟨"IN", some "L", [("1", 4)], [⟨(1, 2), "1"⟩], [((1, 2), 2)]⟩ "IN"
      = .ok (⟨"IN", some "L", [("1", 4)], [⟨(1, 2), "1"⟩], [((1, 2), 2)]⟩, 1)
    ∧ ∃ e1, excellonConvertUnits ⟨"IN", some "L", [("1", 4)], [⟨(1, 2), "1"⟩], [((1, 2), 2)]⟩ "MM"
        = .ok (e1, 127 / 5)
      ∧ e1.units = "MM"
      ∧ e1.drills = scaleDrills [⟨(1, 2), "1"⟩] (127 / 5)
      ∧ e1.tools = scaleTools [("1", 4)] (127 / 5)
      ∧ excellonConvertUnits e1 "IN"
        = .ok (⟨"IN", some "L", [("1", 4)], [⟨(1, 2), "1"⟩], [((1, 2), 2)]⟩, 5 / 127) :=
  convert_units_roundtrip _ rfl (by norm_num [create_geometry, List.lookup])


/-! ## CNC job: G-code generation from Excellon by tool
(camlib.py, CNCjob.generate_from_excellon_by_tool) -/

/-- Python `str.strip()` (whitespace on both ends). -/
def pyStrip (s : String) : String := stripChars s [' ', '\t', '\r', '\n']

/-- Python `"%.<d>f" % q`: fixed-point rendering with `d` fractional digits.
The scaled value is rounded to the nearest integer (all inputs exercised
here lie exactly on the 10^(-d) grid, so no tie-breaking is involved). -/
def fmtFixed (d : ℕ) (q : ℚ) : String :=
  let n : ℤ := round (q * ((10 ^ d : ℕ) : ℚ))
  let m := n.natAbs
  let ip := m / 10 ^ d
  let fp := m % 10 ^ d
  let fpStr := Nat.repr fp
  (if n < 0 then "-" else "") ++ Nat.repr ip ++ "."
    ++ String.mk (List.replicate (d - fpStr.length) '0') ++ fpStr

/-- The CNC-job parameters used by the drill generator. -/
structure CNCjobObj where
  units : String
  z_cut : ℚ
  z_move : ℚ
  feedrate : ℚ
  deriving Repr, DecidableEq

/-- The `unitcode` dictionary `{"IN": "G20", "MM": "G21"}` looked up at
`self.units.upper()`; a missing key raises `KeyError`. -/
def unitcodeLookup (u : String) : Except PyErr String :=
  if u = "IN" then .ok "G20"
  else if u = "MM" then .ok "G21"
  else .error .keyError

/-- Tool selection: the sentinel `"all"` takes every tool of the Excellon
object in table order; otherwise the comma-separated entries are stripped
and filtered to those present in the tool table. -/
def selectedTools (exobj : ExcellonObj) (tools : String) : List String :=
  if tools = "all" then exobj.tools.map Prod.fst
  else ((splitOnChar ',' tools.toList).map (fun cs => pyStrip (String.mk cs))).filter
    (fun t => (exobj.tools.lookup t).isSome)

/-- Drill points of the selected tools, in drill order. -/
def selectedPoints (exobj : ExcellonObj) (tools : String) : List (ℚ × ℚ) :=
  (exobj.drills.filter (fun dr => (selectedTools exobj tools).contains dr.tool)).map Drill.point

/-- The fixed prologue: unit code, `G90`, `G94`, feedrate (`%.2f`), rapid to
travel height (`%.4f`), spindle on, dwell. -/
def cncHeaderStr (uc : String) (job : CNCjobObj) : String :=
  uc ++ "\n" ++ "G90\n" ++ "G94\n" ++ "F" ++ fmtFixed 2 job.feedrate ++ "\n"
    ++ "G00 Z" ++ fmtFixed 4 job.z_move ++ "\n" ++ "M03\n" ++ "G04 P1\n"

/-- Per-drill block: rapid to the point, plunge, retract (all `%.4f`,
Z motions with `G01`). -/
def drillBlock (job : CNCjobObj) (p : ℚ × ℚ) : String :=
  "G00 X" ++ fmtFixed 4 p.1 ++ "Y" ++ fmtFixed 4 p.2 ++ "\n"
    ++ "G01 Z" ++ fmtFixed 4 job.z_cut ++ "\n"
    ++ "G01 Z" ++ fmtFixed 4 job.z_move ++ "\n"

/-- The trailer the source emits: `t % (0, 0)` then `M05` — there is no
`G00 Z<z_move>` retract line before the origin rapid. -/
def cncTrailerStr : String :=
  "G00 X" ++ fmtFixed 4 0 ++ "Y" ++ fmtFixed 4 0 ++ "\n" ++ "M05\n"

/-- Embedding of `CNCjob.generate_from_excellon_by_tool`. -/
def generate_from_excellon_by_tool (job : CNCjobObj) (exobj : ExcellonObj)
    (tools : String) : Except PyErr String :=
  match unitcodeLookup (pyUpper job.units) with
  | .error e => .error e
  | .ok uc =>
    .ok (cncHeaderStr uc job
      ++ String.join ((selectedPoints exobj tools).map (drillBlock job))
      ++ cncTrailerStr)

/-- Counterexample to claim C3 as stated: on a one-drill job the emitted
G-code ends with `G00 X0.0000Y0.0000\nM05\n` directly after the last
per-drill retract — there is no trailing `G00 Z<z_move>` line, and the
origin rapid is printed with four fractional digits, so the claimed trailer
`G00 Z0.1000 / G00 X0Y0 / M05` does not match the output. -/
theorem generate_by_tool_counterexample :
    generate_from_excellon_by_tool ⟨"IN", -1/10, 1/10, 5⟩
      ⟨"IN", some "L", [("1", 1)], [⟨(1, 1), "1"⟩], []⟩ "all"
      = .ok ("G20\nG90\nG94\nF5.00\nG00 Z0.1000\nM03\nG04 P1\n"
        ++ "G00 X1.0000Y1.0000\nG01 Z-0.1000\nG01 Z0.1000\n"
        ++ "G00 X0.0000Y0.0000\nM05\n")
    ∧ ("G20\nG90\nG94\nF5.00\nG00 Z0.1000\nM03\nG04 P1\n"
        ++ "G00 X1.0000Y1.0000\nG01 Z-0.1000\nG01 Z0.1000\n"
        ++ "G00 X0.0000Y0.0000\nM05\n" : String)
      ≠ ("G20\nG90\nG94\nF5.00\nG00 Z0.1000\nM03\nG04 P1\n"
        ++ "G00 X1.0000Y1.0000\nG01 Z-0.1000\nG01 Z0.1000\n"
        ++ "G00 Z0.1000\nG00 X0Y0\nM05\n" : String) := by
  constructor
  · with_unfolding_all rfl
  · decide

/-- Claim C3 (amended).  `generate_from_excellon_by_tool` filters the drills
to the selected tools preserving drill order (`"all"` meaning every tool)
and emits the unit code, `G90`, `G94`, `F%.2f`, `G00 Z<z_move>`, `M03`,
`G04 P1`; then per drill `G00 X<x>Y<y>` (four fractional digits), `G01
Z<z_cut>`, `G01 Z<z_move>`; the trailer is `G00 X0.0000Y0.0000` / `M05`
(no `G00 Z<z_move>` retract line), every line newline-terminated. -/
theorem generate_by_tool_output (job : CNCjobObj) (exobj : ExcellonObj) (sel : String)
    (h : pyUpper job.units = "IN" ∨ pyUpper job.units = "MM") :
    generate_from_excellon_by_tool job exobj sel
      = .ok (cncHeaderStr (if pyUpper job.units = "IN" then "G20" else "G21") job
        ++ String.join ((selectedPoints exobj sel).map (drillBlock job))
        ++ ("G00 X0.0000Y0.0000\n" ++ "M05\n"))
    ∧ (sel = "all" → selectedTools exobj sel = exobj.tools.map Prod.fst)
    ∧ selectedPoints exobj sel
      = (exobj.drills.filter (fun dr => (selectedTools exobj sel).contains dr.tool)).map
          Drill.point := by
  refine ⟨?_, ?_, rfl⟩
  · have htr : cncTrailerStr = "G00 X0.0000Y0.0000\n" ++ "M05\n" := by
      with_unfolding_all rfl
    unfold generate_from_excellon_by_tool unitcodeLookup
    rcases h with h1 | h1 <;> rw [h1]
    · rw [if_pos rfl, if_pos rfl, htr]
    · rw [if_neg (by decide), if_pos rfl, if_neg (by decide), htr]
  · intro hall
    unfold selectedTools
    rw [if_pos hall]

/-- Witness for `generate_by_tool_output` on a one-drill object. -/
theorem generate_by_tool_output_witness :
    generate_from_excellon_by_tool ⟨"IN", -1/10, 1/10, 5⟩
      ⟨"IN", some "L", [("1", 1)], [⟨(1, 1), "1"⟩], []⟩ "all"
      = .ok (cncHeaderStr (if pyUpper ("IN") = "IN" then "G20" else "G21") ⟨"IN", -1/10, 1/10, 5⟩
        ++ String.join ((selectedPoints ⟨"IN", some "L", [("1", 1)], [⟨(1, 1), "1"⟩], []⟩ "all").map
          (drillBlock ⟨"IN", -1/10, 1/10, 5⟩))
        ++ ("G00 X0.0000Y0.0000\n" ++ "M05\n"))
    ∧ ("all" = "all" → selectedTools ⟨"IN", some "L", [("1", 1)], [⟨(1, 1), "1"⟩], []⟩ "all"
        = [("1", (1:ℚ))].map Prod.fst) := by
  have h := generate_by_tool_output ⟨"IN", -1/10, 1/10, 5⟩
    ⟨"IN", some "L", [("1", 1)], [⟨(1, 1), "1"⟩], []⟩ "all" (Or.inl (by decide))
  exact ⟨h.1, h.2.1⟩

/-! ## Arc approximation (camlib.py, function `arc`) -/

/-- The `da_sign` dictionary of `arc`: `{"cw": -1.0, "ccw": 1.0}`; lookup of
any other key raises `KeyError`. -/
def daSign (direction : String) : Option ℚ :=
  if direction = "cw" then some (-1)
  else if direction = "ccw" then some 1
  else none

/-- Normalization of the stop angle in `arc`:
`if direction == "ccw" and stop <= start: stop += 2*pi` followed by
`if direction == "cw" and stop >= start: stop -= 2*pi`. -/
def arcStopNorm (start stop : ℚ) (direction : String) : ℚ :=
  let stop1 := if direction = "ccw" ∧ stop ≤ start then stop + 2 * piQ else stop
  if direction = "cw" ∧ stop1 ≥ start then stop1 - 2 * piQ else stop1

/-- Number of straight segments used by `arc`:
`max([int(ceil(angle/(2*pi)*steps_per_circ)), 2])`. -/
def arcSteps (start stop : ℚ) (direction : String) (spc : ℕ) : ℤ :=
  max ⌈|arcStopNorm start stop direction - start| / (2 * piQ) * spc⌉ 2

/-- The sequence of sample angles `theta = start + delta_angle*i` for
`i in range(steps+1)`, with `delta_angle = sign*angle/steps`. -/
def arcThetas (start stop : ℚ) (direction : String) (sign : ℚ) (spc : ℕ) : List ℚ :=
  let angle := |arcStopNorm start stop direction - start|
  let steps := arcSteps start stop direction spc
  let delta := sign * angle / (steps : ℚ)
  (List.range (steps.toNat + 1)).map (fun i : ℕ => start + delta * (i : ℚ))

/-- Embedding of the module-level `arc` function.  The numpy `cos`/`sin` are
abstracted as function parameters; each sample angle is mapped to
`(center[0]+radius*cos(theta), center[1]+radius*sin(theta))`. -/
def arc (center : ℚ × ℚ) (radius start stop : ℚ) (direction : String) (spc : ℕ)
    (cosf sinf : ℚ → ℚ) : Except PyErr (List (ℚ × ℚ)) :=
  match daSign direction with
  | none => .error .keyError
  | some sign =>
    .ok ((arcThetas start stop direction sign spc).map (fun θ =>
      (center.1 + radius * cosf θ, center.2 + radius * sinf θ)))

theorem piQ_pos : 0 < piQ := by norm_num [piQ]

theorem arcSteps_ge_two (start stop : ℚ) (direction : String) (spc : ℕ) :
    2 ≤ arcSteps start stop direction spc := le_max_right _ _

theorem arcStopNorm_ccw (a b : ℚ) :
    arcStopNorm a b "ccw" = if b ≤ a then b + 2 * piQ else b := by
  have hne : ¬(("ccw" : String) = "cw") := by decide
  by_cases hb : b ≤ a
  · simp [arcStopNorm, hb, hne]
  · simp [arcStopNorm, hb, hne]

theorem arcStopNorm_cw (a b : ℚ) :
    arcStopNorm a b "cw" = if b ≥ a then b - 2 * piQ else b := by
  have hne : ¬(("cw" : String) = "ccw") := by decide
  by_cases hb : b ≥ a
  · simp [arcStopNorm, hb, hne]
  · simp [arcStopNorm, hb, hne]

theorem arcThetas_length (start stop : ℚ) (direction : String) (sign : ℚ) (spc : ℕ) :
    (arcThetas start stop direction sign spc).length
      = (arcSteps start stop direction spc).toNat + 1 := by
  unfold arcThetas
  simp only [List.length_map, List.length_range]

theorem range_map_affine_chain_le (n : ℕ) (a d : ℚ) (hd : 0 ≤ d) :
    ((List.range (n + 1)).map (fun i : ℕ => a + d * (i : ℚ))).Chain' (· ≤ ·) := by
  rw [List.chain'_map]
  rw [List.chain'_range_succ]
  intro m _
  have h1 : (m : ℚ) ≤ ((m + 1 : ℕ) : ℚ) := by push_cast; linarith
  have h2 := mul_le_mul_of_nonneg_left h1 hd
  linarith

theorem range_map_affine_chain_ge (n : ℕ) (a d : ℚ) (hd : d ≤ 0) :
    ((List.range (n + 1)).map (fun i : ℕ => a + d * (i : ℚ))).Chain' (· ≥ ·) := by
  rw [List.chain'_map]
  rw [List.chain'_range_succ]
  intro m _
  have h1 : (m : ℚ) ≤ ((m + 1 : ℕ) : ℚ) := by push_cast; linarith
  have h2 := mul_le_mul_of_nonpos_left h1 hd
  simp only [ge_iff_le]
  linarith

/-- Claim C6.  For every center, radius, start/stop angle, direction in
{cw, ccw} and steps-per-circle count, `arc` succeeds and returns
`steps + 1 ≥ 2` points, the image under `(cos, sin)` sampling of the angle
sequence `start + delta*i`; the stop angle is normalized by adding 2π when
the direction is ccw and `stop ≤ start`, and by subtracting 2π when the
direction is cw and `stop ≥ start`; the number of segments is
`max(2, ceil(|Δθ|/(2π)·steps_per_circ))`; the angular step has the sign of
the direction, so the sample angles are non-decreasing for ccw and
non-increasing for cw. -/
theorem arc_properties (center : ℚ × ℚ) (radius start stop : ℚ) (direction : String)
    (spc : ℕ) (cosf sinf : ℚ → ℚ) (hdir : direction = "ccw" ∨ direction = "cw") :
    ∃ sign thetas, daSign direction = some sign
      ∧ thetas = arcThetas start stop direction sign spc
      ∧ arc center radius start stop direction spc cosf sinf
          = .ok (thetas.map (fun θ => (center.1 + radius * cosf θ, center.2 + radius * sinf θ)))
      ∧ thetas.length = (arcSteps start stop direction spc).toNat + 1
      ∧ 2 ≤ thetas.length
      ∧ arcSteps start stop direction spc
          = max ⌈|arcStopNorm start stop direction - start| / (2 * piQ) * spc⌉ 2
      ∧ (direction = "ccw" → ((stop ≤ start → arcStopNorm start stop direction = stop + 2 * piQ)
          ∧ (start < stop → arcStopNorm start stop direction = stop)))
      ∧ (direction = "cw" → ((start ≤ stop → arcStopNorm start stop direction = stop - 2 * piQ)
          ∧ (stop < start → arcStopNorm start stop direction = stop)))
      ∧ (direction = "ccw" → thetas.Chain' (· ≤ ·))
      ∧ (direction = "cw" → thetas.Chain' (· ≥ ·)) := by
  rcases hdir with hd | hd <;> subst hd
  · -- counter-clockwise
    have hsteps2 : (2 : ℤ) ≤ arcSteps start stop "ccw" spc := arcSteps_ge_two _ _ _ _
    have hstepsQ : (0 : ℚ) < ((arcSteps start stop "ccw" spc : ℤ) : ℚ) := by
      have hz : (0 : ℤ) < arcSteps start stop "ccw" spc := by omega
      exact_mod_cast hz
    refine ⟨1, arcThetas start stop "ccw" 1 spc, ?_, rfl, ?_, arcThetas_length _ _ _ _ _,
      ?_, rfl, ?_, ?_, ?_, ?_⟩
    · unfold daSign
      rw [if_neg (by decide), if_pos rfl]
    · unfold arc daSign
      rw [if_neg (by decide), if_pos rfl]
    · rw [arcThetas_length]
      omega
    · intro _
      refine ⟨fun hss => ?_, fun hss => ?_⟩
      · rw [arcStopNorm_ccw, if_pos hss]
      · rw [arcStopNorm_ccw, if_neg (not_le.mpr hss)]
    · intro hcon
      exact absurd hcon (by decide)
    · intro _
      have hnn : (0 : ℚ) ≤ 1 * |arcStopNorm start stop "ccw" - start|
          / ((arcSteps start stop "ccw" spc : ℤ) : ℚ) := by
        rw [one_mul]
        exact div_nonneg (abs_nonneg _) (le_of_lt hstepsQ)
      simp only [arcThetas]
      exact range_map_affine_chain_le _ _ _ hnn
    · intro hcon
      exact absurd hcon (by decide)
  · -- clockwise
    have hsteps2 : (2 : ℤ) ≤ arcSteps start stop "cw" spc := arcSteps_ge_two _ _ _ _
    have hstepsQ : (0 : ℚ) < ((arcSteps start stop "cw" spc : ℤ) : ℚ) := by
      have hz : (0 : ℤ) < arcSteps start stop "cw" spc := by omega
      exact_mod_cast hz
    refine ⟨-1, arcThetas start stop "cw" (-1) spc, ?_, rfl, ?_, arcThetas_length _ _ _ _ _,
      ?_, rfl, ?_, ?_, ?_, ?_⟩
    · unfold daSign
      rw [if_pos rfl]
    · unfold arc daSign
      rw [if_pos rfl]
    · rw [arcThetas_length]
      omega
    · intro hcon
      exact absurd hcon (by decide)
    · intro _
      refine ⟨fun hss => ?_, fun hss => ?_⟩
      · rw [arcStopNorm_cw, if_pos hss]
      · rw [arcStopNorm_cw, if_neg (not_le.mpr hss)]
    · intro hcon
      exact absurd hcon (by decide)
    · intro _
      have hnp : -1 * |arcStopNorm start stop "cw" - start|
          / ((arcSteps start stop "cw" spc : ℤ) : ℚ) ≤ 0 := by
        rw [neg_mul, one_mul, neg_div]
        exact neg_nonpos_of_nonneg (div_nonneg (abs_nonneg _) (le_of_lt hstepsQ))
      simp only [arcThetas]
      exact range_map_affine_chain_ge _ _ _ hnp


/-- Witness for `arc_properties`: a concrete counter-clockwise quarter-ish arc. -/
theorem arc_properties_witness :
    ∃ sign thetas, daSign "ccw" = some sign
      ∧ thetas = arcThetas 0 1 "ccw" sign 16
      ∧ arc (0, 0) 1 0 1 "ccw" 16 (fun _ => 0) (fun _ => 0)
          = .ok (thetas.map (fun _ => ((0:ℚ) + 1 * 0, (0:ℚ) + 1 * 0)))
      ∧ thetas.length = (arcSteps 0 1 "ccw" 16).toNat + 1
      ∧ 2 ≤ thetas.length
      ∧ arcSteps 0 1 "ccw" 16 = max ⌈|arcStopNorm 0 1 "ccw" - 0| / (2 * piQ) * 16⌉ 2
      ∧ ("ccw" = "ccw" → (((1:ℚ) ≤ 0 → arcStopNorm 0 1 "ccw" = 1 + 2 * piQ)
          ∧ ((0:ℚ) < 1 → arcStopNorm 0 1 "ccw" = 1)))
      ∧ ("ccw" = "cw" → (((0:ℚ) ≤ 1 → arcStopNorm 0 1 "ccw" = 1 - 2 * piQ)
          ∧ ((1:ℚ) < 0 → arcStopNorm 0 1 "ccw" = 1)))
      ∧ ("ccw" = "ccw" → thetas.Chain' (· ≤ ·))
      ∧ ("ccw" = "cw" → thetas.Chain' (· ≥ ·)) :=
  arc_properties (0, 0) 1 0 1 "ccw" 16 (fun _ => 0) (fun _ => 0) (Or.inl rfl)


/-! ## CNC job: G-code parsing (camlib.py, CNCjob.pre_parse and
CNCjob.gcode_parse) -/

/-- The transcendental helpers of numpy used by the G-code arc expansion,
abstracted as function parameters (`atan2f y x` models `arctan2(y, x)`). -/
structure RealFns where
  cosf : ℚ → ℚ
  sinf : ℚ → ℚ
  sqrtf : ℚ → ℚ
  atan2f : ℚ → ℚ → ℚ

/-- One command of `pre_parse`: the dictionary of letter words restricted to
the letters `gcode_parse` reads (`G X Y Z I J`); `N M F P` words are parsed
and stored by the source but never read back. -/
structure GCmd where
  g : Option ℚ := none
  x : Option ℚ := none
  y : Option ℚ := none
  z : Option ℚ := none
  i : Option ℚ := none
  j : Option ℚ := none
  deriving Repr, DecidableEq

/-- Comment removal in `pre_parse`: `op = line.find("(")`,
`cl = line.find(")")`, and the slice is cut out only when `cl > op > -1`. -/
def stripParens (cs : List Char) : List Char :=
  match cs.findIdx? (· = '('), cs.findIdx? (· = ')') with
  | some o, some c => if o < c then cs.take o ++ cs.drop (c + 1) else cs
  | _, _ => cs

/-- The slices of the line between consecutive code-letter positions
(`line[codes_idx[p]:codes_idx[p+1]]`, the last running to the end). -/
def sliceParts (cs : List Char) (idxs : List ℕ) : List (List Char) :=
  (List.zip idxs (idxs.drop 1 ++ [cs.length])).map (fun p => (cs.drop p.1).take (p.2 - p.1))

/-- Store a letter word into the command (`cmds[part[0]] = float(part[1:])`). -/
def setGWord (m : GCmd) (c : Char) (v : ℚ) : GCmd :=
  if c = 'G' then { m with g := some v }
  else if c = 'X' then { m with x := some v }
  else if c = 'Y' then { m with y := some v }
  else if c = 'Z' then { m with z := some v }
  else if c = 'I' then { m with i := some v }
  else if c = 'J' then { m with j := some v }
  else m

/-- Parse one part: the leading character is the code letter, the rest is the
numeric value; `float` of a malformed remainder raises `ValueError`. -/
def applyCmdPart (m : GCmd) (part : List Char) : Except PyErr GCmd :=
  match part with
  | [] => .error .indexError
  | c :: rest =>
    match parseDecimal (String.mk rest) with
    | none => .error .valueError
    | some v => .ok (setGWord m c v)

/-- Embedding of the per-line work of `CNCjob.pre_parse`: strip, remove a
bracketed comment, find the positions of the letters in `NMGXYZIJFP`,
slice into words and build the command dictionary.  Lines without any code
letter yield nothing.  (The `G2(0|1)` units side effect only records the
units attribute and is not read by the parser.) -/
def preParseLine (line : String) : Except PyErr (Option GCmd) :=
  let cs := stripParens (pyStrip line).toList
  let idxs := cs.enum.filterMap (fun p => if p.2 ∈ "NMGXYZIJFP".toList then some p.1 else none)
  if idxs.isEmpty then .ok none
  else
    ((sliceParts cs idxs).map (fun cs2 => (pyStrip (String.mk cs2)).toList)).foldlM
      applyCmdPart {} |>.map some

/-- Embedding of `CNCjob.pre_parse` over the `\n`-split text. -/
def preParse (gtext : String) : Except PyErr (List GCmd) :=
  ((splitOnChar '\n' gtext.toList).map String.mk).foldlM (fun acc line =>
    (preParseLine line).map (fun r =>
      match r with
      | none => acc
      | some c => acc ++ [c])) []

/-- Parser state of `gcode_parse`: the `current` dictionary (restricted to
the read-back keys), the open path, the last computed `kind` pair and the
finished geometry entries. -/
structure GState where
  x : ℚ
  y : ℚ
  z : ℚ
  g : ℚ
  path : List (ℚ × ℚ)
  kind : String × String
  geometry : List (List (ℚ × ℚ) × (String × String))
  deriving Repr, DecidableEq

/-- Initial state: `current = {X:0, Y:0, Z:0, G:0}`, `path = [(0, 0)]`,
`kind = ["C", "F"]`, no geometry yet. -/
def initGState : GState :=
  { x := 0, y := 0, z := 0, g := 0, path := [(0, 0)], kind := ("C", "F"), geometry := [] }

/-- The height phase of a command: when a `Z` word is present the height is
updated and the open path, if it has at least two points, is closed into the
geometry with the current kind, the new path starting at its last point. -/
def zPhase (s : GState) (c : GCmd) : GState :=
  match c.z with
  | none => s
  | some zv =>
    let s1 := { s with z := zv }
    if 1 < s1.path.length then
      { s1 with geometry := s1.geometry ++ [(s1.path, s1.kind)],
                path := match s1.path.getLast? with
                        | some p => [p]
                        | none => [] }
    else s1

/-- The `G` phase: `current['G'] = int(gobj['G'])`. -/
def gPhase (s : GState) (c : GCmd) : GState :=
  match c.g with
  | none => s
  | some gv => { s with g := ((pyTrunc gv : ℤ) : ℚ) }

/-- The motion phase: when an `X` or `Y` word is present the target is
resolved (missing coordinates inherit), the kind is recomputed as
`(T if Z>0 else C, S if G>0 else F)`, and a point (for `G∈{0,1}`) or an arc
(for `G∈{2,3}`, using the `I`/`J` words — their absence raises `KeyError`)
is appended to the path. -/
def xyPhase (fns : RealFns) (spc : ℕ) (s : GState) (c : GCmd) : Except PyErr GState :=
  if c.x.isSome ∨ c.y.isSome then
    let x := c.x.getD s.x
    let y := c.y.getD s.y
    let kind := ((if 0 < s.z then "T" else "C"), (if 0 < s.g then "S" else "F"))
    if s.g = 0 ∨ s.g = 1 then
      .ok { s with path := s.path ++ [(x, y)], kind := kind }
    else if s.g = 2 ∨ s.g = 3 then
      match c.i, c.j with
      | some iv, some jv =>
        match arc (iv + s.x, jv + s.y) (fns.sqrtf (iv ^ 2 + jv ^ 2))
            (fns.atan2f (-jv) (-iv)) (fns.atan2f (y - (jv + s.y)) (x - (iv + s.x)))
            (if s.g = 2 then "cw" else "ccw") spc fns.cosf fns.sinf with
        | .error e => .error e
        | .ok pts => .ok { s with path := s.path ++ pts, kind := kind }
      | _, _ => .error .keyError
    else .ok { s with kind := kind }
  else .ok s

/-- The closing update `for code in gobj: current[code] = gobj[code]`
(raw word values, overwriting the truncated `G`). -/
def finalUpdate (s : GState) (c : GCmd) : GState :=
  { s with x := c.x.getD s.x, y := c.y.getD s.y, z := c.z.getD s.z, g := c.g.getD s.g }

/-- Processing of one command of `gcode_parse`. -/
def processGCmd (fns : RealFns) (spc : ℕ) (s : GState) (c : GCmd) : Except PyErr GState :=
  match xyPhase fns spc (gPhase (zPhase s c) c) c with
  | .error e => .error e
  | .ok s2 => .ok (finalUpdate s2 c)

/-- Fold of `processGCmd` over the command list. -/
def gcodeParseCmds (fns : RealFns) (spc : ℕ) : GState → List GCmd → Except PyErr GState
  | s, [] => .ok s
  | s, c :: cs =>
    match processGCmd fns spc s c with
    | .error e => .error e
    | .ok s2 => gcodeParseCmds fns spc s2 cs

/-- End-of-input flush: a remaining path of length at least 2 is closed. -/
def gcodeParseFinish (s : GState) : List (List (ℚ × ℚ) × (String × String)) :=
  if 1 < s.path.length then s.geometry ++ [(s.path, s.kind)] else s.geometry

/-- Embedding of `CNCjob.gcode_parse` from the G-code text. -/
def gcode_parse (fns : RealFns) (spc : ℕ) (gtext : String) :
    Except PyErr (List (List (ℚ × ℚ) × (String × String))) :=
  match preParse gtext with
  | .error e => .error e
  | .ok cmds =>
    match gcodeParseCmds fns spc initGState cmds with
    | .error e => .error e
    | .ok s => .ok (gcodeParseFinish s)

/-- The kind formula exactly as claim C4 words it: travel iff the current Z
is positive, fast iff the current G equals 0. -/
def claimKind (z g : ℚ) : String × String :=
  ((if 0 < z then "T" else "C"), (if g = 0 then "F" else "S"))

/-- Counterexample to claim C4 as stated: on the text
`"X1\nG-1 X2\nZ1"` the segment recorded at the `Z` change was produced by a
motion whose current `G` is `-1 ≠ 0`; the claim's formula gives kind
`("C", "S")` but the parser records `("C", "F")` (the source tests `G > 0`,
not `G ≠ 0`). -/
theorem gcode_parse_kind_counterexample :
    gcode_parse ⟨fun _ => 0, fun _ => 0, fun _ => 0, fun _ _ => 0⟩ 20 "X1\nG-1 X2\nZ1"
      = .ok [([(0, 0), (1, 0)], ("C", "F"))]
    ∧ claimKind 0 (-1) = ("C", "S")
    ∧ (("C", "F") : String × String) ≠ ("C", "S") := by
  refine ⟨?_, by decide, by decide⟩
  with_unfolding_all rfl

/-- Claim C4 (amended).  When a command carries a `Z` word that changes the
current height, the open path is closed into the geometry if it has at least
two points and the new path starts at the last point of the closed path;
after any motion the kind is `(T if current Z > 0 else C, S if current G > 0
else F)` — for the supported motion codes G00–G03 this agrees with
"F exactly when G is 0"; a command is processed as the height phase, the `G`
phase, the motion phase and the raw final update, in that order. -/
theorem gcode_parse_z_and_kind :
    (∀ (s : GState) (c : GCmd) (zv : ℚ), c.z = some zv → zv ≠ s.z → 2 ≤ s.path.length →
      (zPhase s c).geometry = s.geometry ++ [(s.path, s.kind)]
      ∧ (zPhase s c).path.head? = s.path.getLast?
      ∧ (zPhase s c).path.length = 1
      ∧ (zPhase s c).z = zv)
    ∧ (∀ (fns : RealFns) (spc : ℕ) (s : GState) (c : GCmd) (s2 : GState),
        (c.x.isSome ∨ c.y.isSome) → xyPhase fns spc s c = .ok s2 →
        s2.kind = ((if 0 < s.z then "T" else "C"), (if 0 < s.g then "S" else "F"))
        ∧ (0 ≤ s.g → s2.kind = claimKind s.z s.g ∨ s.g ≠ 0))
    ∧ (∀ fns spc s c, processGCmd fns spc s c
        = (xyPhase fns spc (gPhase (zPhase s c) c) c).map (fun s2 => finalUpdate s2 c)) := by
  refine ⟨?_, ?_, ?_⟩
  · intro s c zv hz hne hlen
    have hgt : 1 < s.path.length := by omega
    cases hl : s.path.getLast? with
    | none =>
        rw [List.getLast?_eq_none_iff] at hl
        rw [hl] at hlen
        simp at hlen
    | some p =>
        unfold zPhase
        simp only [hz, hl]
        rw [if_pos hgt]
        exact ⟨rfl, rfl, rfl, rfl⟩
  · intro fns spc s c s2 hxy hok
    have hkind : s2.kind = ((if 0 < s.z then "T" else "C"), (if 0 < s.g then "S" else "F")) := by
      unfold xyPhase at hok
      rw [if_pos hxy] at hok
      by_cases h01 : s.g = 0 ∨ s.g = 1
      · rw [if_pos h01] at hok
        cases hok
        rfl
      · rw [if_neg h01] at hok
        by_cases h23 : s.g = 2 ∨ s.g = 3
        · rw [if_pos h23] at hok
          split at hok
          · split at hok
            · simp at hok
            · cases hok
              rfl
          · simp at hok
        · rw [if_neg h23] at hok
          cases hok
          rfl
    refine ⟨hkind, fun hg0 => ?_⟩
    by_cases hz0 : s.g = 0
    · left
      rw [hkind]
      unfold claimKind
      rw [hz0]
      norm_num
    · right
      exact hz0
  · intro fns spc s c
    unfold processGCmd
    cases hxy : xyPhase fns spc (gPhase (zPhase s c) c) c <;> rfl

/-- Witness for `gcode_parse_z_and_kind` at a concrete state and command. -/
theorem gcode_parse_z_and_kind_witness :
    ((zPhase ⟨0, 0, 0, 0, [(0, 0), (1, 0)], ("C", "F"), []⟩ { z := some 1 }).geometry
        = [] ++ [([(0, 0), (1, 0)], ("C", "F"))]
      ∧ (zPhase ⟨0, 0, 0, 0, [(0, 0), (1, 0)], ("C", "F"), []⟩ { z := some 1 }).path.head?
        = [((0 : ℚ), (0 : ℚ)), (1, 0)].getLast?
      ∧ (zPhase ⟨0, 0, 0, 0, [(0, 0), (1, 0)], ("C", "F"), []⟩ { z := some 1 }).path.length = 1
      ∧ (zPhase ⟨0, 0, 0, 0, [(0, 0), (1, 0)], ("C", "F"), []⟩ { z := some 1 }).z = 1)
    ∧ ∀ s2 : GState,
        xyPhase ⟨fun _ => 0, fun _ => 0, fun _ => 0, fun _ _ => 0⟩ 20
          ⟨0, 0, 0, 0, [(0, 0)], ("C", "F"), []⟩ { x := some 1 } = .ok s2 →
        s2.kind = ((if (0 : ℚ) < 0 then "T" else "C"), (if (0 : ℚ) < 0 then "S" else "F")) := by
  constructor
  · exact gcode_parse_z_and_kind.1 ⟨0, 0, 0, 0, [(0, 0), (1, 0)], ("C", "F"), []⟩
      { z := some 1 } 1 rfl (by norm_num) (by decide)
  · intro s2 hok
    exact (gcode_parse_z_and_kind.2.1 ⟨fun _ => 0, fun _ => 0, fun _ => 0, fun _ _ => 0⟩ 20
      ⟨0, 0, 0, 0, [(0, 0)], ("C", "F"), []⟩ { x := some 1 } s2 (Or.inl rfl) hok).1


/-! ## Gerber parser (camlib.py, Gerber.parse_lines)

The line-oriented state machine is embedded with one matcher function per
source regex (deterministic equivalents of the Python patterns, documented
individually) and one branch per source conditional, in source order.
Shapely calls on the pending buffers are recorded symbolically. -/

/-- Embedding of `parse_gerber_number`: `int(strnumber)*(10**(-frac_digits))`. -/
def parse_gerber_number (strnumber : String) (frac_digits : ℤ) : ℚ :=
  (pyIntStr strnumber : ℚ) * (10 : ℚ) ^ (-frac_digits)

/-- A point of the pending Gerber path.  Coordinates are `none` before any
coordinate word has been seen (Python `None`). -/
abbrev OPt : Type := Option ℚ × Option ℚ

/-- A shape awaiting the polarity flush (an entry of `poly_buffer`),
recorded symbolically from the shapely call the source makes. -/
inductive GerberShape
  | flash (loc : OPt) (ap : Aperture)
  | lineBuf (pts : List OPt) (halfwidth : ℚ)
  | polyPath (pts : List OPt)
  | regionPoly (pts : List OPt)
  deriving DecidableEq

/-- The solid geometry accumulator: the initial empty polygon, and the
unions/differences with the cascaded union of a flushed buffer. -/
inductive SolidGeo
  | emptyInit
  | unionWith (s : SolidGeo) (buf : List GerberShape)
  | diffWith (s : SolidGeo) (buf : List GerberShape)
  deriving DecidableEq

/-- Parser state of `Gerber.parse_lines` (the local state variables plus the
object tables the loop mutates). -/
structure GerberState where
  path : List OPt
  polyBuffer : List GerberShape
  lastPathAperture : Option String
  currentAperture : Option String
  interpMode : Option ℤ
  opCode : Option ℤ
  curX : Option ℚ
  curY : Option ℚ
  quadrantMode : Option String
  curMac : Option String
  polarity : String
  makingRegion : Bool
  apertures : List (String × Aperture)
  macs : List (String × String)
  intDigits : ℤ
  fracDigits : ℤ
  units : String
  solid : SolidGeo
  deriving DecidableEq

/-- The initial parser state over a fresh `Gerber` object. -/
def initGerberState : GerberState :=
  { path := [], polyBuffer := [], lastPathAperture := none, currentAperture := none,
    interpMode := none, opCode := none, curX := none, curY := none,
    quadrantMode := none, curMac := none, polarity := "D", makingRegion := false,
    apertures := [], macs := [], intDigits := 3, fracDigits := 4, units := "in",
    solid := .emptyInit }

/-- Dictionary lookup `self.apertures[k]` where `k` may be Python `None`
(then, as for any missing key, the lookup raises `KeyError`). -/
def lookupAp (aps : List (String × Aperture)) (k : Option String) : Option Aperture :=
  match k with
  | none => none
  | some s => aps.lookup s

/-- The `["size"]` access on an aperture record: only `C` apertures carry a
`size` key; any other kind raises `KeyError`. -/
def apSize (ap : Aperture) : Option ℚ :=
  match ap with
  | .C size => some size
  | _ => none

/-- Update-or-insert in a string-valued association list (dict assignment). -/
def setAssocStr (l : List (String × String)) (k v : String) : List (String × String) :=
  match l with
  | [] => [(k, v)]
  | (k2, w) :: rest => if k2 = k then (k2, v) :: rest else (k2, w) :: setAssocStr rest k v

/-- Append to the raw body of the macro being accumulated
(`self.aperture_macros[m].append(txt)`). -/
def appendMac (l : List (String × String)) (k txt : String) : List (String × String) :=
  l.map (fun p => if p.1 = k then (p.1, p.2 ++ txt) else p)

/-- Update-or-insert of an aperture record (dict assignment). -/
def setAp (l : List (String × Aperture)) (k : String) (v : Aperture) :
    List (String × Aperture) :=
  match l with
  | [] => [(k, v)]
  | (k2, w) :: rest => if k2 = k then (k2, v) :: rest else (k2, w) :: setAp rest k v

/-- Maximal run of an optional sign followed by at least one digit
(the regex fragment `-?\d+` anchored at the given position). -/
def signedDigitsAt (cs : List Char) : Option (List Char) :=
  match cs with
  | '-' :: r =>
    let ds := r.takeWhile Char.isDigit
    if ds.isEmpty then none else some ('-' :: ds)
  | r =>
    let ds := r.takeWhile Char.isDigit
    if ds.isEmpty then none else some ds

/-- The lookahead `(?=.*L(-?\d+))?` for a letter `L`: because `.*` is
greedy, the group captures at the last occurrence of `L` that is followed by
an optionally signed digit run. -/
def lookaheadNum (letter : Char) : List Char → Option (List Char)
  | [] => none
  | c :: rest =>
    match lookaheadNum letter rest with
    | some g => some g
    | none => if c = letter then signedDigitsAt rest else none

/-- Matcher for `lin_re =
^(?:G0?(1))?(?=.*X(-?\d+))?(?=.*Y(-?\d+))?[XY][^DIJ]*(?:D0?([123]))?\*$`.
Returns (group 2, group 3, group 4); group 1 is never read by the branch. -/
def matchLin (line : String) : Option (Option String × Option String × Option ℤ) :=
  let cs := line.toList
  let afterPre := match cs with
    | 'G' :: '0' :: '1' :: r => r
    | 'G' :: '1' :: r => r
    | r => r
  let xg := (lookaheadNum 'X' afterPre).map String.mk
  let yg := (lookaheadNum 'Y' afterPre).map String.mk
  match afterPre with
  | c :: rest =>
    if c = 'X' ∨ c = 'Y' then
      match rest.findIdx? (fun ch => ch == 'D' || ch == 'I' || ch == 'J') with
      | none => if rest.getLast? = some '*' then some (xg, yg, none) else none
      | some k =>
        match rest.drop k with
        | 'D' :: '0' :: d :: '*' :: [] =>
          if d = '1' ∨ d = '2' ∨ d = '3' then some (xg, yg, some (digitVal d : ℤ)) else none
        | 'D' :: d :: '*' :: [] =>
          if d = '1' ∨ d = '2' ∨ d = '3' then some (xg, yg, some (digitVal d : ℤ)) else none
        | _ => none
    else none
  | [] => none

/-- Matcher for `circ_re = ^(?:G0?([23]))?(?=.*X(-?\d+))?(?=.*Y(-?\d+))
(?=.*I(-?\d+))?(?=.*J(-?\d+))?[XYIJ][^D]*(?:D0([12]))?\*$`.
Returns (mode, X, Y, I, J, D-code). -/
def matchCirc (line : String) :
    Option (Option ℤ × Option String × Option String × Option String × Option String
      × Option ℤ) :=
  let cs := line.toList
  let pre : Option ℤ × List Char := match cs with
    | 'G' :: '0' :: '2' :: r => (some 2, r)
    | 'G' :: '0' :: '3' :: r => (some 3, r)
    | 'G' :: '2' :: r => (some 2, r)
    | 'G' :: '3' :: r => (some 3, r)
    | r => (none, r)
  let afterPre := pre.2
  let xg := (lookaheadNum 'X' afterPre).map String.mk
  let yg := (lookaheadNum 'Y' afterPre).map String.mk
  let ig := (lookaheadNum 'I' afterPre).map String.mk
  let jg := (lookaheadNum 'J' afterPre).map String.mk
  match afterPre with
  | c :: rest =>
    if c = 'X' ∨ c = 'Y' ∨ c = 'I' ∨ c = 'J' then
      match rest.findIdx? (fun ch => ch == 'D') with
      | none => if rest.getLast? = some '*' then some (pre.1, xg, yg, ig, jg, none) else none
      | some k =>
        match rest.drop k with
        | 'D' :: '0' :: d :: '*' :: [] =>
          if d = '1' ∨ d = '2' then some (pre.1, xg, yg, ig, jg, some (digitVal d : ℤ))
          else none
        | _ => none
    else none
  | [] => none

/-- Matcher for `opcode_re = ^D0?([123])\*$`. -/
def matchOpcode (line : String) : Option ℤ :=
  match line.toList with
  | ['D', d, '*'] =>
    if d = '1' ∨ d = '2' ∨ d = '3' then some (digitVal d : ℤ) else none
  | ['D', '0', d, '*'] =>
    if d = '1' ∨ d = '2' ∨ d = '3' then some (digitVal d : ℤ) else none
  | _ => none

/-- Matcher for `quad_re = ^G7([45])\*$`. -/
def matchQuad (line : String) : Option Char :=
  match line.toList with
  | ['G', '7', d, '*'] => if d = '4' ∨ d = '5' then some d else none
  | _ => none

/-- Matcher for `regionon_re = ^G36\*$`. -/
def matchRegionOn (line : String) : Bool := line = "G36*"

/-- Matcher for `regionoff_re = ^G37\*$`. -/
def matchRegionOff (line : String) : Bool := line = "G37*"

/-- Matcher for `ad_re = ^%ADD(\d\d+)([a-zA-Z0-9]*)(?:,(.*))?\*%$`. -/
def matchAd (line : String) : Option (String × String × Option String) :=
  match line.toList with
  | '%' :: 'A' :: 'D' :: 'D' :: rest =>
    let ds := rest.takeWhile Char.isDigit
    if ds.length < 2 then none
    else
      let r1 := rest.drop ds.length
      let ty := r1.takeWhile Char.isAlphanum
      match r1.drop ty.length with
      | ['*', '%'] => some (String.mk ds, String.mk ty, none)
      | ',' :: t =>
        match t.reverse with
        | '%' :: '*' :: restRev => some (String.mk ds, String.mk ty, some (String.mk restRev.reverse))
        | _ => none
      | _ => none
  | _ => none

/-- Matcher for `interp_re = ^(?:G0?([123]))\*` (a prefix pattern). -/
def matchInterp (line : String) : Option ℤ :=
  match line.toList with
  | 'G' :: '0' :: d :: '*' :: _ =>
    if d = '1' ∨ d = '2' ∨ d = '3' then some (digitVal d : ℤ) else none
  | 'G' :: d :: '*' :: _ =>
    if d = '1' ∨ d = '2' ∨ d = '3' then some (digitVal d : ℤ) else none
  | _ => none

/-- Matcher for `tool_re = ^(?:G54)?D(\d\d+)\*$`. -/
def matchTool (line : String) : Option String :=
  let cs := line.toList
  let cs2 := match cs with
    | 'G' :: '5' :: '4' :: r => r
    | r => r
  match cs2 with
  | 'D' :: rest =>
    let ds := rest.takeWhile Char.isDigit
    if 2 ≤ ds.length ∧ rest.drop ds.length = ['*'] then some (String.mk ds) else none
  | _ => none

/-- Matcher for `lpol_re = ^%LP([DC])\*%$`. -/
def matchLpol (line : String) : Option String :=
  match line.toList with
  | ['%', 'L', 'P', c, '*', '%'] =>
    if c = 'D' ∨ c = 'C' then some (String.mk [c]) else none
  | _ => none

/-- Matcher for `fmt_re = %FS([LT])([AI])X(\d)(\d)Y\d\d\*%$` (searched,
unanchored at the left, so it requires the 13-character tail).  Returns
(group 3, group 4) — the X digit counts used by the branch. -/
def matchFmt (line : String) : Option (ℤ × ℤ) :=
  match line.toList.reverse with
  | '%' :: '*' :: d4 :: d3 :: 'Y' :: d2 :: d1 :: 'X' :: ai :: lt :: 'S' :: 'F' :: '%' :: _ =>
    if (lt = 'L' ∨ lt = 'T') ∧ (ai = 'A' ∨ ai = 'I')
        ∧ d1.isDigit ∧ d2.isDigit ∧ d3.isDigit ∧ d4.isDigit then
      some ((digitVal d1 : ℤ), (digitVal d2 : ℤ))
    else none
  | _ => none

/-- Matcher for `mode_re = ^%MO(IN|MM)\*%$`. -/
def matchMode (line : String) : Option String :=
  if line = "%MOIN*%" then some "IN"
  else if line = "%MOMM*%" then some "MM"
  else none

/-- Matcher for the obsolete `units_re = ^G7([01])\*$`. -/
def matchUnits (line : String) : Option String :=
  if line = "G70*" then some "IN"
  else if line = "G71*" then some "MM"
  else none

/-- Matcher for the obsolete `absrel_re = ^G9([01])\*$` (the branch only
records a flag the parser never reads). -/
def matchAbsrel (line : String) : Option Unit :=
  if line = "G90*" ∨ line = "G91*" then some () else none

/-- Matcher for `comm_re = ^G0?4(.*)$`. -/
def matchComm (line : String) : Bool :=
  match line.toList with
  | 'G' :: '4' :: _ => true
  | 'G' :: '0' :: '4' :: _ => true
  | _ => false

/-- Matcher for `eof_re = ^M02\*` (a prefix pattern). -/
def matchEof (line : String) : Bool :=
  match line.toList with
  | 'M' :: '0' :: '2' :: '*' :: _ => true
  | _ => false

/-- Matcher for `am1_re = ^%AM([^\*]+)\*(.+)?(%)?$`.  Group 3 can never
capture: the greedy `(.+)?` absorbs the whole remainder (including any
final `%`) and `$` always succeeds, so a macro started on one line is
never finished on the same line.  Returns (group 1, group 2). -/
def matchAm1 (line : String) : Option (String × Option String) :=
  match line.toList with
  | '%' :: 'A' :: 'M' :: rest =>
    let g1 := rest.takeWhile (· ≠ '*')
    if g1.isEmpty then none
    else
      match rest.drop g1.length with
      | '*' :: tail =>
        some (String.mk g1, if tail.isEmpty then none else some (String.mk tail))
      | _ => none
  | _ => none

/-- Matcher for `am2_re = (.*)%$` (searched): succeeds on any line ending in
`%`, with group 1 everything before that final `%`. -/
def matchAm2 (line : String) : Option String :=
  match line.toList.reverse with
  | '%' :: restRev => some (String.mk restRev.reverse)
  | _ => none


/-- Python `float()` of a string: a failed parse raises `ValueError`. -/
def pyFloatParse (s : String) : Except PyErr ℚ :=
  match parseDecimal s with
  | some v => .ok v
  | none => .error .valueError

/-- Python `int()` of a string: an optional sign followed by at least one
digit; anything else raises `ValueError`. -/
def pyIntParse (s : String) : Except PyErr ℤ :=
  match s.toList with
  | '-' :: ds => if ¬ds.isEmpty ∧ ds.all Char.isDigit then .ok (-(digitsVal ds : ℤ))
      else .error .valueError
  | '+' :: ds => if ¬ds.isEmpty ∧ ds.all Char.isDigit then .ok (digitsVal ds : ℤ)
      else .error .valueError
  | ds => if ¬ds.isEmpty ∧ ds.all Char.isDigit then .ok (digitsVal ds : ℤ)
      else .error .valueError

/-- The stroke flush shared by several branches:
`width = self.apertures[last_path_aperture]["size"]` followed by
`poly_buffer.append(LineString(path).buffer(width/2))`.  A missing aperture
(including `last_path_aperture = None`) or an aperture record without a
`size` key raises `KeyError`. -/
def flushStroke (st : GerberState) : Except PyErr (List GerberShape) :=
  match lookupAp st.apertures st.lastPathAperture with
  | none => .error .keyError
  | some ap =>
    match apSize ap with
    | none => .error .keyError
    | some width => .ok (st.polyBuffer ++ [.lineBuf st.path (width / 2)])

/-- Body of the `lin_re` branch: update the coordinates and operation code,
then act on the operation code (1 pen-down, 2 pen-up with stroke/region
flush, 3 flash of the current aperture). -/
def linBranch (st : GerberState) (xg yg : Option String) (d : Option ℤ) :
    Except PyErr GerberState :=
  let x := match xg with
    | some sx => some (parse_gerber_number sx st.fracDigits)
    | none => st.curX
  let y := match yg with
    | some sy => some (parse_gerber_number sy st.fracDigits)
    | none => st.curY
  let op := match d with
    | some dv => some dv
    | none => st.opCode
  let st1 := { st with curX := x, curY := y, opCode := op }
  if op = some 1 then
    .ok { st1 with path := st1.path ++ [(x, y)], lastPathAperture := st1.currentAperture }
  else if op = some 2 then
    if 1 < st1.path.length then
      if st1.makingRegion then
        .ok { st1 with polyBuffer := st1.polyBuffer ++ [.polyPath st1.path], path := [(x, y)] }
      else
        match flushStroke st1 with
        | .error e => .error e
        | .ok buf => .ok { st1 with polyBuffer := buf, path := [(x, y)] }
    else .ok { st1 with path := [(x, y)] }
  else if op = some 3 then
    match lookupAp st1.apertures st1.currentAperture with
    | none => .error .keyError
    | some ap => .ok { st1 with polyBuffer := st1.polyBuffer ++ [.flash (x, y) ap] }
  else .ok st1

/-- Body of the `circ_re` branch.  The result `(true, st)` consumes the
line; `(false, st)` is the single-quadrant case, which only warns and falls
through to the remaining matchers with the updated state. -/
def circBranch (fns : RealFns) (spc : ℕ) (st : GerberState) (mode : Option ℤ)
    (xg yg ig jg : Option String) (d : Option ℤ) :
    Except PyErr (Bool × GerberState) :=
  let x := match xg with
    | some sx => some (parse_gerber_number sx st.fracDigits)
    | none => st.curX
  let y := match yg with
    | some sy => some (parse_gerber_number sy st.fracDigits)
    | none => st.curY
  let i : ℚ := match ig with
    | some si => parse_gerber_number si st.fracDigits
    | none => 0
  let j : ℚ := match jg with
    | some sj => parse_gerber_number sj st.fracDigits
    | none => 0
  if st.quadrantMode = none then .ok (true, st)
  else if mode = none ∧ ¬(st.interpMode = some 2 ∨ st.interpMode = some 3) then .ok (true, st)
  else
    let interp := match mode with
      | some m => some m
      | none => st.interpMode
    let op := match d with
      | some dv => some dv
      | none => st.opCode
    let st1 := { st with interpMode := interp, opCode := op }
    if op = some 2 then
      if 1 < st1.path.length then
        match flushStroke st1 with
        | .error e => .error e
        | .ok buf =>
          .ok (true, { st1 with polyBuffer := buf, curX := x, curY := y, path := [(x, y)] })
      else .ok (true, { st1 with curX := x, curY := y, path := [(x, y)] })
    else if op = some 3 then .ok (true, st1)
    else if st1.quadrantMode = some "MULTI" then
      match x, y, st1.curX, st1.curY with
      | some xv, some yv, some cx, some cy =>
        match arc (i + cx, j + cy) (fns.sqrtf (i ^ 2 + j ^ 2)) (fns.atan2f (-j) (-i))
            (fns.atan2f (yv - (j + cy)) (xv - (i + cx)))
            (if st1.interpMode = some 2 then "cw" else "ccw") spc fns.cosf fns.sinf with
        | .error e => .error e
        | .ok pts =>
          match pts.getLast? with
          | none => .error .indexError
          | some lastp =>
            .ok (true,
              { st1 with
                  curX := some lastp.1, curY := some lastp.2,
                  path := st1.path ++ pts.map (fun p => ((some p.1, some p.2) : OPt)),
                  lastPathAperture := st1.currentAperture })
      | _, _, _, _ => .error .typeError
    else .ok (false, st1)

/-- Embedding of `Gerber.aperture_parse`: normalize the id with
`str(int(...))`, split the parameters on `X`, and register the aperture
record for the recognized kinds; an unknown kind is warned about and not
registered. -/
def aperture_parse (st : GerberState) (apertureId apertureType : String)
    (apParameters : Option String) : Except PyErr GerberState :=
  let apid := Nat.repr (digitsVal apertureId.toList)
  let paramList : Option (List String) :=
    apParameters.map (fun p => (splitOnChar 'X' p.toList).map String.mk)
  if apertureType = "C" then
    match paramList with
    | none => .error .typeError
    | some ps =>
      match ps.head? with
      | none => .error .indexError
      | some p0 =>
        match pyFloatParse p0 with
        | .error e => .error e
        | .ok size => .ok { st with apertures := setAp st.apertures apid (.C size) }
  else if apertureType = "R" ∨ apertureType = "O" then
    match paramList with
    | none => .error .typeError
    | some ps =>
      match ps.get? 0, ps.get? 1 with
      | some p0, some p1 =>
        match pyFloatParse p0 with
        | .error e => .error e
        | .ok w =>
          match pyFloatParse p1 with
          | .error e => .error e
          | .ok h =>
            .ok { st with
                    apertures := setAp st.apertures apid
                      (if apertureType = "R" then .R w h else .O w h) }
      | _, _ => .error .indexError
  else if apertureType = "P" then
    match paramList with
    | none => .error .typeError
    | some ps =>
      match ps.get? 0, ps.get? 1 with
      | some p0, some p1 =>
        match pyFloatParse p0 with
        | .error e => .error e
        | .ok diam =>
          match pyIntParse p1 with
          | .error e => .error e
          | .ok nv =>
            if 3 ≤ ps.length then
              match ps.get? 2 with
              | none => .error .indexError
              | some p2 =>
                match pyFloatParse p2 with
                | .error e => .error e
                | .ok rot =>
                  .ok { st with apertures := setAp st.apertures apid (.P diam nv (some rot)) }
            else .ok { st with apertures := setAp st.apertures apid (.P diam nv none) }
      | _, _ => .error .indexError
  else
    match st.macs.lookup apertureType with
    | some raw =>
      .ok { st with apertures := setAp st.apertures apid (.AM raw (paramList.getD [])) }
    | none => .ok st

/-- The matcher chain after the `circ_re` branch (operation code alone,
quadrant mode, region on/off, aperture definition, interpolation mode, tool
change, polarity, format, mode, obsolete units and absolute/relative codes,
comments, EOF, and the final warn-and-ignore). -/
def gerberTail (st : GerberState) (line : String) : Except PyErr GerberState :=
  match matchOpcode line with
  | some d =>
    let st1 := { st with opCode := some d }
    if d = 3 then
      match st1.path.getLast? with
      | none => .error .indexError
      | some pt =>
        match lookupAp st1.apertures st1.currentAperture with
        | none => .error .keyError
        | some ap => .ok { st1 with polyBuffer := st1.polyBuffer ++ [.flash pt ap] }
    else .ok st1
  | none =>
  match matchQuad line with
  | some d => .ok { st with quadrantMode := some (if d = '4' then "SINGLE" else "MULTI") }
  | none =>
  if matchRegionOn line then
    if 1 < st.path.length then
      match flushStroke st with
      | .error e => .error e
      | .ok buf =>
        match st.path.getLast? with
        | none => .error .indexError
        | some pt => .ok { st with polyBuffer := buf, path := [pt], makingRegion := true }
    else .ok { st with makingRegion := true }
  else
  if matchRegionOff line then
    let st1 := { st with makingRegion := false }
    if st1.path.length < 3 then .ok st1
    else .ok { st1 with polyBuffer := st1.polyBuffer ++ [.regionPoly st1.path],
                        path := [(st1.curX, st1.curY)] }
  else
  match matchAd line with
  | some (g1, g2, g3) => aperture_parse st g1 g2 g3
  | none =>
  match matchInterp line with
  | some m => .ok { st with interpMode := some m }
  | none =>
  match matchTool line with
  | some t => .ok { st with currentAperture := some t }
  | none =>
  match matchLpol line with
  | some pol =>
    let flushed : Except PyErr GerberState :=
      if 1 < st.path.length ∧ st.polarity ≠ pol then
        match flushStroke st with
        | .error e => .error e
        | .ok buf =>
          match st.path.getLast? with
          | none => .error .indexError
          | some pt => .ok { st with polyBuffer := buf, path := [pt] }
      else .ok st
    match flushed with
    | .error e => .error e
    | .ok st1 =>
      .ok { st1 with
        solid := if st1.polarity = "D" then SolidGeo.unionWith st1.solid st1.polyBuffer
          else SolidGeo.diffWith st1.solid st1.polyBuffer,
        polyBuffer := [], polarity := pol }
  | none =>
  match matchFmt line with
  | some dg => .ok { st with intDigits := dg.1, fracDigits := dg.2 }
  | none =>
  match matchMode line with
  | some u => .ok { st with units := u }
  | none =>
  match matchUnits line with
  | some u => .ok { st with units := u }
  | none =>
  match matchAbsrel line with
  | some _ => .ok st
  | none =>
  if matchComm line then .ok st
  else if matchEof line then .ok st
  else .ok st

/-- Processing of one input line of `Gerber.parse_lines`: strip the line,
continue a macro in progress, else try the aperture-macro header, the
linear and circular branches (the single-quadrant case falls through), and
finally the remaining matchers. -/
def processGLine (fns : RealFns) (spc : ℕ) (st : GerberState) (rawLine : String) :
    Except PyErr GerberState :=
  let line := stripChars rawLine [' ', '\r', '\n']
  match st.curMac with
  | some m =>
    match matchAm2 line with
    | some g1 => .ok { st with macs := appendMac st.macs m g1, curMac := none }
    | none => .ok { st with macs := appendMac st.macs m line }
  | none =>
    match matchAm1 line with
    | some ng =>
      .ok { st with curMac := some ng.1, macs := setAssocStr st.macs ng.1 (ng.2.getD "") }
    | none =>
      match matchLin line with
      | some g => linBranch st g.1 g.2.1 g.2.2
      | none =>
        match matchCirc line with
        | some g =>
          match circBranch fns spc st g.1 g.2.1 g.2.2.1 g.2.2.2.1 g.2.2.2.2.1 g.2.2.2.2.2 with
          | .error e => .error e
          | .ok (true, st2) => .ok st2
          | .ok (false, st2) => gerberTail st2 line
        | none => gerberTail st line

/-- The end-of-input work of `parse_lines`: flush a pending stroke of length
at least 2, then apply the buffered shapes to the solid geometry under the
current polarity. -/
def gerberFinish (st : GerberState) : Except PyErr GerberState :=
  let flushed : Except PyErr GerberState :=
    if 1 < st.path.length then
      match flushStroke st with
      | .error e => .error e
      | .ok buf => .ok { st with polyBuffer := buf }
    else .ok st
  match flushed with
  | .error e => .error e
  | .ok st1 =>
    .ok { st1 with
      solid := if st1.polarity = "D" then SolidGeo.unionWith st1.solid st1.polyBuffer
        else SolidGeo.diffWith st1.solid st1.polyBuffer }

/-- Embedding of `Gerber.parse_lines` over a list of input lines. -/
def gerberParseLines (fns : RealFns) (spc : ℕ) (lines : List String) :
    Except PyErr GerberState :=
  match lines.foldlM (processGLine fns spc) initGerberState with
  | .error e => .error e
  | .ok st => gerberFinish st


/-- Seam lemma: a `D03` flash through the `lin_re` branch with the current
aperture missing from the table raises `KeyError`. -/
theorem linBranch_flash_keyError (st : GerberState) (xg yg : Option String)
    (hlook : lookupAp st.apertures st.currentAperture = none) :
    linBranch st xg yg (some 3) = .error .keyError := by
  simp [linBranch, hlook]

/-- Claim C2 (counterexample): on the single line `X5000Y5000D03*` — a flash
before any aperture has been selected — `parse_lines` does not warn and
continue: it raises an uncaught `KeyError` from
`self.apertures[current_aperture]` and aborts. -/
theorem gerber_parse_claim_counterexample :
    gerberParseLines ⟨fun _ => 0, fun _ => 0, fun _ => 0, fun _ _ => 0⟩ 20
      ["X5000Y5000D03*"] = .error .keyError := by
  with_unfolding_all rfl

/-- Seam lemma: a `D02` pen-up through the `lin_re` branch with at least two
pending path points, outside a region, and the last path aperture missing
from the table raises `KeyError` at the stroke-width lookup. -/
theorem linBranch_stroke_keyError (st : GerberState) (xg yg : Option String)
    (hlen : 1 < st.path.length) (hreg : st.makingRegion = false)
    (hlook : lookupAp st.apertures st.lastPathAperture = none) :
    linBranch st xg yg (some 2) = .error .keyError := by
  simp [linBranch, flushStroke, hlen, hreg, hlook]

/-- Seam lemma: an `%AD` line whose aperture kind is none of `C`, `R`, `O`,
`P` and not a stored macro name is warned about and registers nothing. -/
theorem aperture_parse_unknown_kind (st : GerberState) (g1 g2 : String)
    (g3 : Option String) (hC : g2 ≠ "C") (hR : g2 ≠ "R") (hO : g2 ≠ "O")
    (hP : g2 ≠ "P") (hm : st.macs.lookup g2 = none) :
    aperture_parse st g1 g2 g3 = .ok st := by
  simp [aperture_parse, hC, hR, hO, hP, hm]

/-- Claim C2 (amended).  A flash (`D03`) whose current aperture id is not in
the aperture table (including when no aperture has been selected yet)
raises an uncaught `KeyError` from `self.apertures[current_aperture]`,
aborting `parse_lines`; a stroke flush — a `D02` pen-up over a pending path
of length at least 2 outside a region, or the end-of-input flush — whose
last path aperture id is not in the table likewise raises an uncaught
`KeyError` from `self.apertures[last_path_aperture]`; by contrast an `%AD`
line with an unrecognized aperture kind is only warned about and registers
nothing, and a line that no matcher recognizes is only warned about and
leaves the parser state unchanged, so parsing continues on those inputs. -/
theorem gerber_parse_unknown_aperture (fns : RealFns) (spc : ℕ)
    (st : GerberState) (line : String) (xg yg : Option String)
    (hstrip : stripChars line [' ', '\r', '\n'] = line)
    (hmac : st.curMac = none)
    (ham1 : matchAm1 line = none)
    (hlin : matchLin line = some (xg, yg, some 3))
    (hlook : lookupAp st.apertures st.currentAperture = none) :
    processGLine fns spc st line = .error .keyError
    ∧ (∀ (st3 : GerberState) (l3 : String) (xg3 yg3 : Option String),
        stripChars l3 [' ', '\r', '\n'] = l3 →
        st3.curMac = none →
        matchAm1 l3 = none →
        matchLin l3 = some (xg3, yg3, some 2) →
        1 < st3.path.length →
        st3.makingRegion = false →
        lookupAp st3.apertures st3.lastPathAperture = none →
        processGLine fns spc st3 l3 = .error .keyError)
    ∧ (∀ (st5 : GerberState),
        1 < st5.path.length →
        lookupAp st5.apertures st5.lastPathAperture = none →
        gerberFinish st5 = .error .keyError)
    ∧ (∀ (st4 : GerberState) (l4 g1 g2 : String) (g3 : Option String),
        stripChars l4 [' ', '\r', '\n'] = l4 →
        st4.curMac = none →
        matchAm1 l4 = none →
        matchLin l4 = none →
        matchCirc l4 = none →
        matchOpcode l4 = none →
        matchQuad l4 = none →
        matchRegionOn l4 = false →
        matchRegionOff l4 = false →
        matchAd l4 = some (g1, g2, g3) →
        g2 ≠ "C" → g2 ≠ "R" → g2 ≠ "O" → g2 ≠ "P" →
        st4.macs.lookup g2 = none →
        processGLine fns spc st4 l4 = .ok st4)
    ∧ ∀ (st2 : GerberState) (l2 : String),
        st2.curMac = none →
        matchAm1 (stripChars l2 [' ', '\r', '\n']) = none →
        matchLin (stripChars l2 [' ', '\r', '\n']) = none →
        matchCirc (stripChars l2 [' ', '\r', '\n']) = none →
        matchOpcode (stripChars l2 [' ', '\r', '\n']) = none →
        matchQuad (stripChars l2 [' ', '\r', '\n']) = none →
        matchRegionOn (stripChars l2 [' ', '\r', '\n']) = false →
        matchRegionOff (stripChars l2 [' ', '\r', '\n']) = false →
        matchAd (stripChars l2 [' ', '\r', '\n']) = none →
        matchInterp (stripChars l2 [' ', '\r', '\n']) = none →
        matchTool (stripChars l2 [' ', '\r', '\n']) = none →
        matchLpol (stripChars l2 [' ', '\r', '\n']) = none →
        matchFmt (stripChars l2 [' ', '\r', '\n']) = none →
        matchMode (stripChars l2 [' ', '\r', '\n']) = none →
        matchUnits (stripChars l2 [' ', '\r', '\n']) = none →
        matchAbsrel (stripChars l2 [' ', '\r', '\n']) = none →
        matchComm (stripChars l2 [' ', '\r', '\n']) = false →
        matchEof (stripChars l2 [' ', '\r', '\n']) = false →
        processGLine fns spc st2 l2 = .ok st2 := by
  refine ⟨?_, ?_, ?_, ?_, ?_⟩
  · unfold processGLine
    simp only [hstrip, hmac, ham1, hlin]
    exact linBranch_flash_keyError st xg yg hlook
  · intro st3 l3 xg3 yg3 hstrip3 hmac3 ham13 hlin3 hlen3 hreg3 hlook3
    unfold processGLine
    simp only [hstrip3, hmac3, ham13, hlin3]
    exact linBranch_stroke_keyError st3 xg3 yg3 hlen3 hreg3 hlook3
  · intro st5 hlen5 hlook5
    simp [gerberFinish, flushStroke, hlen5, hlook5]
  · intro st4 l4 g1 g2 g3 hstrip4 hmac4 ham14 hlin4 hcirc4 hop4 hquad4 hron4 hroff4
      hAd4 hC hR hO hP hmacs4
    unfold processGLine
    simp only [hstrip4, hmac4, ham14, hlin4, hcirc4]
    unfold gerberTail
    simp only [hop4, hquad4, hron4, hroff4, hAd4, Bool.false_eq_true, if_false]
    exact aperture_parse_unknown_kind st4 g1 g2 g3 hC hR hO hP hmacs4
  · intro st2 l2 h1 h2 h3 h4 h5 h6 h7 h8 h9 h10 h11 h12 h13 h14 h15 h16 h17 h18
    unfold processGLine
    simp only [h1, h2, h3, h4]
    unfold gerberTail
    simp only [h5, h6, h7, h8, h9, h10, h11, h12, h13, h14, h15, h16, h17, h18,
      Bool.false_eq_true, if_false]

/-- Concrete instance discharging the hypotheses of the amended C2 theorem:
the flash line `X5000Y5000D03*` against the fresh parser state (empty
aperture table, no aperture selected) aborts with `KeyError`. -/
theorem gerber_parse_unknown_aperture_witness :
    processGLine ⟨fun _ => 0, fun _ => 0, fun _ => 0, fun _ _ => 0⟩ 20 initGerberState
      "X5000Y5000D03*" = .error .keyError :=
  (gerber_parse_unknown_aperture _ 20 initGerberState "X5000Y5000D03*"
    (some "5000") (some "5000") (by decide) rfl (by decide) (by decide) rfl).1

end FlatCAM
